import Mathlib

/-!
Verification development for the PismoProtocol indexer (`src/indexer`).

The Rust sources are shallowly embedded:

* the BCS binary decoding performed by `bcs::from_bytes` in `worker.rs` is
  modelled with a small deterministic byte-list decoder monad (`Bcs`);
* the Diesel repositories (`src/db/repositories/*.rs`) become pure functions
  over an in-memory database state `Db`, with an explicit `connOk` flag
  standing for the success of `get_conn` on the r2d2 pool;
* `PositionEventWorker::process_checkpoint` (`worker.rs`) becomes
  `processCheckpoint`, a fold over transactions and events threading a
  `World` state (database + connection-attempt counter + outbound HTTP calls);
* the chrono call `Utc.timestamp_millis_opt(ms as i64).single()` is modelled
  by `timestampMsToDatetime` over `Int` milliseconds;
* machine-integer casts (`as i32`, `as i64`, `try_into`) are modelled with
  explicit two's-complement wrapping on `Nat`/`Int`.

Bytes are modelled as natural numbers (the decoders only ever produce values
below 256 when fed byte lists, and no theorem depends on larger inputs).
-/

namespace Pismo

/-! ## Byte-level BCS decoding (model of `bcs::from_bytes` in `worker.rs`) -/

/-- A deterministic byte decoder: consumes bytes from the front of the list,
returning the decoded value and the remaining bytes, or `none` on failure. -/
def Bcs (α : Type) : Type := List Nat → Option (α × List Nat)

def Bcs.pure (a : α) : Bcs α := fun l => some (a, l)

def Bcs.bind (m : Bcs α) (f : α → Bcs β) : Bcs β := fun l =>
  match m l with
  | none => none
  | some (a, r) => f a r

instance : Monad Bcs where
  pure := Bcs.pure
  bind := Bcs.bind

def Bcs.fail : Bcs α := fun _ => none

/-- Read a single byte. -/
def readByte : Bcs Nat := fun l =>
  match l with
  | [] => none
  | b :: r => some (b, r)

/-- Read exactly `n` bytes. -/
def readBytes (n : Nat) : Bcs (List Nat) := fun l =>
  if n ≤ l.length then some (l.take n, l.drop n) else none

/-- Little-endian value of a byte list (first byte is least significant). -/
def leVal : List Nat → Nat
  | [] => 0
  | b :: r => b + 256 * leVal r

/-- A 32-byte Move `address` / `SuiAddress` (BCS: 32 raw bytes). -/
def readAddr : Bcs (List Nat) := readBytes 32

/-- BCS `u64`: 8 bytes little-endian. -/
def readU64 : Bcs Nat := Bcs.bind (readBytes 8) (fun bs => Bcs.pure (leVal bs))

/-- BCS `u16`: 2 bytes little-endian. -/
def readU16 : Bcs Nat := Bcs.bind (readBytes 2) (fun bs => Bcs.pure (leVal bs))

/-- BCS `u8`. -/
def readU8 : Bcs Nat := readByte

/-- BCS `bool`: one byte that must be 0 or 1. -/
def readBool : Bcs Bool := Bcs.bind readByte (fun b =>
  if b = 0 then Bcs.pure false
  else if b = 1 then Bcs.pure true
  else Bcs.fail)

/-- One step bound on ULEB128 length (5 bytes suffice for `u32` values). -/
def readUlebCore : Nat → Nat → Nat → Bcs Nat
  | 0, _, _ => Bcs.fail
  | fuel + 1, shift, acc => Bcs.bind readByte (fun b =>
      if b < 128 then
        (if b = 0 ∧ 0 < shift then Bcs.fail
         else
           let v := acc + b * 2 ^ shift
           if v < 2 ^ 32 then Bcs.pure v else Bcs.fail)
      else readUlebCore fuel (shift + 7) (acc + (b - 128) * 2 ^ shift))

/-- BCS canonical ULEB128-encoded `u32` (used for sequence lengths and enum
variant indices). -/
def readUleb : Bcs Nat := readUlebCore 5 0 0

/-- BCS `Vec<u8>`: ULEB128 length followed by that many raw bytes. -/
def readVecBytes : Bcs (List Nat) :=
  Bcs.bind readUleb (fun n => readBytes n)

/-- UTF-8 validity of a byte list (RFC 3629 ranges), as checked by serde when
deserializing a Rust `String`. -/
def isValidUtf8 : List Nat → Bool
  | [] => true
  | b :: r =>
    if b < 0x80 then isValidUtf8 r
    else if 0xC2 ≤ b ∧ b ≤ 0xDF then
      match r with
      | c1 :: r1 => decide (0x80 ≤ c1 ∧ c1 ≤ 0xBF) && isValidUtf8 r1
      | [] => false
    else if b = 0xE0 then
      match r with
      | c1 :: c2 :: r2 =>
        decide (0xA0 ≤ c1 ∧ c1 ≤ 0xBF) && decide (0x80 ≤ c2 ∧ c2 ≤ 0xBF) && isValidUtf8 r2
      | _ => false
    else if 0xE1 ≤ b ∧ b ≤ 0xEC then
      match r with
      | c1 :: c2 :: r2 =>
        decide (0x80 ≤ c1 ∧ c1 ≤ 0xBF) && decide (0x80 ≤ c2 ∧ c2 ≤ 0xBF) && isValidUtf8 r2
      | _ => false
    else if b = 0xED then
      match r with
      | c1 :: c2 :: r2 =>
        decide (0x80 ≤ c1 ∧ c1 ≤ 0x9F) && decide (0x80 ≤ c2 ∧ c2 ≤ 0xBF) && isValidUtf8 r2
      | _ => false
    else if 0xEE ≤ b ∧ b ≤ 0xEF then
      match r with
      | c1 :: c2 :: r2 =>
        decide (0x80 ≤ c1 ∧ c1 ≤ 0xBF) && decide (0x80 ≤ c2 ∧ c2 ≤ 0xBF) && isValidUtf8 r2
      | _ => false
    else if b = 0xF0 then
      match r with
      | c1 :: c2 :: c3 :: r3 =>
        decide (0x90 ≤ c1 ∧ c1 ≤ 0xBF) && decide (0x80 ≤ c2 ∧ c2 ≤ 0xBF) &&
          decide (0x80 ≤ c3 ∧ c3 ≤ 0xBF) && isValidUtf8 r3
      | _ => false
    else if 0xF1 ≤ b ∧ b ≤ 0xF3 then
      match r with
      | c1 :: c2 :: c3 :: r3 =>
        decide (0x80 ≤ c1 ∧ c1 ≤ 0xBF) && decide (0x80 ≤ c2 ∧ c2 ≤ 0xBF) &&
          decide (0x80 ≤ c3 ∧ c3 ≤ 0xBF) && isValidUtf8 r3
      | _ => false
    else if b = 0xF4 then
      match r with
      | c1 :: c2 :: c3 :: r3 =>
        decide (0x80 ≤ c1 ∧ c1 ≤ 0x8F) && decide (0x80 ≤ c2 ∧ c2 ≤ 0xBF) &&
          decide (0x80 ≤ c3 ∧ c3 ≤ 0xBF) && isValidUtf8 r3
      | _ => false
    else false

/-- BCS Rust `String`: a `Vec<u8>` whose content must be valid UTF-8.  The
decoded value is kept as the raw byte list. -/
def readStringBytes : Bcs (List Nat) :=
  Bcs.bind readVecBytes (fun bs => if isValidUtf8 bs then Bcs.pure bs else Bcs.fail)

/-- BCS enum with exactly two unit variants (ULEB128 variant index 0 or 1),
as derived for `PositionType` and `TransferTo` in `events/common.rs`. -/
def readEnum2 : Bcs Bool := Bcs.bind readUleb (fun v =>
  if v = 0 then Bcs.pure false
  else if v = 1 then Bcs.pure true
  else Bcs.fail)

/-- `bcs::from_bytes`: run the decoder and require the whole input consumed. -/
def fromBytes (d : Bcs α) (l : List Nat) : Option α :=
  match d l with
  | some (a, []) => some a
  | _ => none

/-! ### Extension property: decoders only look at the bytes they consume -/

/-- A decoder is extension-stable when appending extra bytes to a successful
input leaves the decoded value unchanged and appends the extra bytes to the
leftover. -/
def BcsExt (d : Bcs α) : Prop :=
  ∀ l ext a r, d l = some (a, r) → d (l ++ ext) = some (a, r ++ ext)

theorem bcsExt_pure (a : α) : BcsExt (Bcs.pure a) := by
  intro l ext a' r h
  simp [Bcs.pure] at h
  simp [Bcs.pure, h]

theorem bcsExt_fail : BcsExt (Bcs.fail (α := α)) := by
  intro l ext a' r h
  simp [Bcs.fail] at h

theorem bcsExt_bind {m : Bcs α} {f : α → Bcs β}
    (hm : BcsExt m) (hf : ∀ a, BcsExt (f a)) : BcsExt (Bcs.bind m f) := by
  intro l ext b r h
  unfold Bcs.bind at h ⊢
  cases hml : m l with
  | none => rw [hml] at h; exact absurd h (by simp)
  | some ar =>
    obtain ⟨a, mid⟩ := ar
    rw [hml] at h
    simp at h
    rw [hm l ext a mid hml]
    simpa using hf a mid ext b r h

theorem bcsExt_readByte : BcsExt readByte := by
  intro l ext a r h
  cases l with
  | nil => simp [readByte] at h
  | cons b t =>
    simp [readByte] at h
    simp [readByte, h]

theorem bcsExt_readBytes (n : Nat) : BcsExt (readBytes n) := by
  intro l ext a r h
  simp only [readBytes] at h ⊢
  by_cases hn : n ≤ l.length
  · simp [hn] at h
    have hlen : n ≤ (l ++ ext).length := by
      simp [List.length_append]; omega
    simp [hlen, List.take_append_of_le_length hn, List.drop_append_of_le_length hn,
      ← h.1, ← h.2]
    omega
  · simp [hn] at h

theorem bcsExt_ite {c : Prop} [Decidable c] {d₁ d₂ : Bcs α}
    (h₁ : BcsExt d₁) (h₂ : BcsExt d₂) : BcsExt (if c then d₁ else d₂) := by
  by_cases hc : c
  · simpa [hc] using h₁
  · simpa [hc] using h₂

theorem bcsExt_readUlebCore (fuel shift acc : Nat) :
    BcsExt (readUlebCore fuel shift acc) := by
  induction fuel generalizing shift acc with
  | zero => exact bcsExt_fail
  | succ n ih =>
    unfold readUlebCore
    refine bcsExt_bind bcsExt_readByte ?_
    intro b
    refine bcsExt_ite ?_ (ih _ _)
    refine bcsExt_ite bcsExt_fail ?_
    exact bcsExt_ite (bcsExt_pure _) bcsExt_fail

theorem bcsExt_readUleb : BcsExt readUleb := bcsExt_readUlebCore 5 0 0

theorem bcsExt_readU64 : BcsExt readU64 :=
  bcsExt_bind (bcsExt_readBytes 8) (fun _ => bcsExt_pure _)

theorem bcsExt_readU16 : BcsExt readU16 :=
  bcsExt_bind (bcsExt_readBytes 2) (fun _ => bcsExt_pure _)

theorem bcsExt_readAddr : BcsExt readAddr := bcsExt_readBytes 32

theorem bcsExt_readBool : BcsExt readBool := by
  refine bcsExt_bind bcsExt_readByte ?_
  intro b
  exact bcsExt_ite (bcsExt_pure _) (bcsExt_ite (bcsExt_pure _) bcsExt_fail)

theorem bcsExt_readVecBytes : BcsExt readVecBytes :=
  bcsExt_bind bcsExt_readUleb (fun n => bcsExt_readBytes n)

theorem bcsExt_readStringBytes : BcsExt readStringBytes :=
  bcsExt_bind bcsExt_readVecBytes
    (fun _ => bcsExt_ite (bcsExt_pure _) bcsExt_fail)

theorem bcsExt_readEnum2 : BcsExt readEnum2 := by
  refine bcsExt_bind bcsExt_readUleb ?_
  intro v
  exact bcsExt_ite (bcsExt_pure _) (bcsExt_ite (bcsExt_pure _) bcsExt_fail)

/-- Strict-truncation failure: if a decoder accepts a payload in full, it
rejects every strictly shorter front part of it. -/
theorem fromBytes_strict_trunc {d : Bcs α} (hd : BcsExt d)
    {p q ext : List Nat} {a : α}
    (hp : fromBytes d p = some a) (hsplit : p = q ++ ext) (hne : ext ≠ []) :
    fromBytes d q = none := by
  unfold fromBytes at hp ⊢
  cases hq : d q with
  | none => simp
  | some br =>
    obtain ⟨b, r⟩ := br
    cases r with
    | nil =>
      have := hd q ext b [] hq
      rw [hsplit] at hp
      simp at this
      rw [this] at hp
      cases ext with
      | nil => exact absurd rfl hne
      | cons x t => simp at hp
    | cons x t => simp

/-! ## Move event structures (`src/indexer/src/events/*.rs`)

Enums `PositionType` and `TransferTo` from `events/common.rs` are carried as
`Bool` (`false` = first variant `Long`/`Vault`, `true` = `Short`/`User`). -/

/-- `events/position_created.rs`: `PositionCreatedEvent`. -/
structure MovePositionCreatedEvent where
  position_id : List Nat
  position_type : Bool
  amount : Nat
  leverage_multiplier : Nat
  entry_price : Nat
  entry_price_decimals : Nat
  supported_positions_token_i : Nat
  price_feed_id_bytes : List Nat
  account_id : List Nat
  deriving DecidableEq

/-- `events/position_closed.rs`: `PositionClosedEvent`. -/
structure MovePositionClosedEvent where
  position_id : List Nat
  position_type : Bool
  amount : Nat
  leverage_multiplier : Nat
  entry_price : Nat
  entry_price_decimals : Nat
  close_price : Nat
  close_price_decimals : Nat
  price_delta : Nat
  transfer_amount : Nat
  transfer_to : Bool
  account_id : List Nat
  deriving DecidableEq

/-- `events/vault_created.rs`: `VaultCreatedEvent` (the two token-info strings
are kept as their UTF-8 byte lists). -/
structure MoveVaultCreatedEvent where
  vault_address : List Nat
  vault_marker_address : List Nat
  coin_token_info : List Nat
  lp_token_info : List Nat
  deriving DecidableEq

/-- `events/new_account_event.rs`: `NewAccountEvent`. -/
structure MoveNewAccountEvent where
  account_id : List Nat
  stats_id : List Nat
  deriving DecidableEq

/-- `events/collateral_deposit_event.rs`: `TokenIdentifier`. -/
structure MoveTokenIdentifier where
  account_address : List Nat
  creation_num : Nat
  deriving DecidableEq

/-- `events/collateral_deposit_event.rs`: `CollateralDepositEvent`. -/
structure MoveCollateralDepositEvent where
  collateral_id : List Nat
  collateral_marker_id : List Nat
  account_id : List Nat
  token_id : MoveTokenIdentifier
  amount : Nat
  deriving DecidableEq

/-- `events/start_collateral_value_assertion_event.rs`:
`StartCollateralValueAssertionEvent`. -/
structure MoveStartCollateralValueAssertionEvent where
  cva_id : List Nat
  account_id : List Nat
  program_id : List Nat
  num_open_collateral_objects : Nat
  deriving DecidableEq

/-- `events/collateral_transfer_created.rs`: `CollateralTransferCreatedEvent`
(`SuiAddress` fields are 32-byte lists). -/
structure MoveCollateralTransferCreatedEvent where
  transfer_id : List Nat
  collateral_marker_id : List Nat
  collateral_address : List Nat
  amount : Nat
  to_vault_address : List Nat
  deriving DecidableEq

/-- `events/vault_transfer_created.rs`: `VaultTransferCreatedEvent`. -/
structure MoveVaultTransferCreatedEvent where
  transfer_id : List Nat
  vault_marker_id : List Nat
  vault_address : List Nat
  amount : Nat
  to_user_address : List Nat
  deriving DecidableEq

/-- `events/position_liquidated.rs`: `PositionLiquidatedEvent`. -/
structure MovePositionLiquidatedEvent where
  position_id : List Nat
  deriving DecidableEq

/-- `events/collateral_marker_liquidated.rs`: `CollateralMarkerLiquidatedEvent`. -/
structure MoveCollateralMarkerLiquidatedEvent where
  collateral_marker_id : List Nat
  account_id : List Nat
  deriving DecidableEq

/-! ### Per-kind BCS decoders (field order follows the Rust struct order) -/

def decPositionCreated : Bcs MovePositionCreatedEvent := do
  let pid ← readAddr
  let pt ← readEnum2
  let amt ← readU64
  let lev ← readU16
  let ep ← readU64
  let epd ← readU8
  let spti ← readU64
  let pfib ← readVecBytes
  let acct ← readAddr
  return ⟨pid, pt, amt, lev, ep, epd, spti, pfib, acct⟩

def decPositionClosed : Bcs MovePositionClosedEvent := do
  let pid ← readAddr
  let pt ← readEnum2
  let amt ← readU64
  let lev ← readU16
  let ep ← readU64
  let epd ← readU8
  let cp ← readU64
  let cpd ← readU8
  let pd ← readU64
  let ta ← readU64
  let tt ← readEnum2
  let acct ← readAddr
  return ⟨pid, pt, amt, lev, ep, epd, cp, cpd, pd, ta, tt, acct⟩

def decVaultCreated : Bcs MoveVaultCreatedEvent := do
  let va ← readAddr
  let vma ← readAddr
  let cti ← readStringBytes
  let lti ← readStringBytes
  return ⟨va, vma, cti, lti⟩

def decNewAccount : Bcs MoveNewAccountEvent := do
  let acct ← readAddr
  let stats ← readAddr
  return ⟨acct, stats⟩

def decTokenIdentifier : Bcs MoveTokenIdentifier := do
  let aa ← readAddr
  let cn ← readU64
  return ⟨aa, cn⟩

def decCollateralDeposit : Bcs MoveCollateralDepositEvent := do
  let cid ← readAddr
  let cmid ← readAddr
  let acct ← readAddr
  let tok ← decTokenIdentifier
  let amt ← readU64
  return ⟨cid, cmid, acct, tok, amt⟩

def decStartCva : Bcs MoveStartCollateralValueAssertionEvent := do
  let cva ← readAddr
  let acct ← readAddr
  let prog ← readAddr
  let n ← readU64
  return ⟨cva, acct, prog, n⟩

def decCollateralTransferCreated : Bcs MoveCollateralTransferCreatedEvent := do
  let tid ← readAddr
  let cmid ← readAddr
  let caddr ← readAddr
  let amt ← readU64
  let tva ← readAddr
  return ⟨tid, cmid, caddr, amt, tva⟩

def decVaultTransferCreated : Bcs MoveVaultTransferCreatedEvent := do
  let tid ← readAddr
  let vmid ← readAddr
  let vaddr ← readAddr
  let amt ← readU64
  let tua ← readAddr
  return ⟨tid, vmid, vaddr, amt, tua⟩

def decPositionLiquidated : Bcs MovePositionLiquidatedEvent := do
  let pid ← readAddr
  return ⟨pid⟩

def decMarkerLiquidated : Bcs MoveCollateralMarkerLiquidatedEvent := do
  let cmid ← readAddr
  let acct ← readAddr
  return ⟨cmid, acct⟩

theorem bcsExt_decPositionCreated : BcsExt decPositionCreated := by
  unfold decPositionCreated
  simp only [Bind.bind, Pure.pure]
  refine bcsExt_bind bcsExt_readAddr fun _ => ?_
  refine bcsExt_bind bcsExt_readEnum2 fun _ => ?_
  refine bcsExt_bind bcsExt_readU64 fun _ => ?_
  refine bcsExt_bind bcsExt_readU16 fun _ => ?_
  refine bcsExt_bind bcsExt_readU64 fun _ => ?_
  refine bcsExt_bind bcsExt_readByte fun _ => ?_
  refine bcsExt_bind bcsExt_readU64 fun _ => ?_
  refine bcsExt_bind bcsExt_readVecBytes fun _ => ?_
  exact bcsExt_bind bcsExt_readAddr fun _ => bcsExt_pure _

theorem bcsExt_decPositionClosed : BcsExt decPositionClosed := by
  unfold decPositionClosed
  simp only [Bind.bind, Pure.pure]
  refine bcsExt_bind bcsExt_readAddr fun _ => ?_
  refine bcsExt_bind bcsExt_readEnum2 fun _ => ?_
  refine bcsExt_bind bcsExt_readU64 fun _ => ?_
  refine bcsExt_bind bcsExt_readU16 fun _ => ?_
  refine bcsExt_bind bcsExt_readU64 fun _ => ?_
  refine bcsExt_bind bcsExt_readByte fun _ => ?_
  refine bcsExt_bind bcsExt_readU64 fun _ => ?_
  refine bcsExt_bind bcsExt_readByte fun _ => ?_
  refine bcsExt_bind bcsExt_readU64 fun _ => ?_
  refine bcsExt_bind bcsExt_readU64 fun _ => ?_
  refine bcsExt_bind bcsExt_readEnum2 fun _ => ?_
  exact bcsExt_bind bcsExt_readAddr fun _ => bcsExt_pure _

theorem bcsExt_decVaultCreated : BcsExt decVaultCreated := by
  unfold decVaultCreated
  simp only [Bind.bind, Pure.pure]
  refine bcsExt_bind bcsExt_readAddr fun _ => ?_
  refine bcsExt_bind bcsExt_readAddr fun _ => ?_
  refine bcsExt_bind bcsExt_readStringBytes fun _ => ?_
  exact bcsExt_bind bcsExt_readStringBytes fun _ => bcsExt_pure _

theorem bcsExt_decNewAccount : BcsExt decNewAccount := by
  unfold decNewAccount
  simp only [Bind.bind, Pure.pure]
  refine bcsExt_bind bcsExt_readAddr fun _ => ?_
  exact bcsExt_bind bcsExt_readAddr fun _ => bcsExt_pure _

theorem bcsExt_decTokenIdentifier : BcsExt decTokenIdentifier := by
  unfold decTokenIdentifier
  simp only [Bind.bind, Pure.pure]
  refine bcsExt_bind bcsExt_readAddr fun _ => ?_
  exact bcsExt_bind bcsExt_readU64 fun _ => bcsExt_pure _

theorem bcsExt_decCollateralDeposit : BcsExt decCollateralDeposit := by
  unfold decCollateralDeposit
  simp only [Bind.bind, Pure.pure]
  refine bcsExt_bind bcsExt_readAddr fun _ => ?_
  refine bcsExt_bind bcsExt_readAddr fun _ => ?_
  refine bcsExt_bind bcsExt_readAddr fun _ => ?_
  refine bcsExt_bind bcsExt_decTokenIdentifier fun _ => ?_
  exact bcsExt_bind bcsExt_readU64 fun _ => bcsExt_pure _

theorem bcsExt_decStartCva : BcsExt decStartCva := by
  unfold decStartCva
  simp only [Bind.bind, Pure.pure]
  refine bcsExt_bind bcsExt_readAddr fun _ => ?_
  refine bcsExt_bind bcsExt_readAddr fun _ => ?_
  refine bcsExt_bind bcsExt_readAddr fun _ => ?_
  exact bcsExt_bind bcsExt_readU64 fun _ => bcsExt_pure _

theorem bcsExt_decCollateralTransferCreated : BcsExt decCollateralTransferCreated := by
  unfold decCollateralTransferCreated
  simp only [Bind.bind, Pure.pure]
  refine bcsExt_bind bcsExt_readAddr fun _ => ?_
  refine bcsExt_bind bcsExt_readAddr fun _ => ?_
  refine bcsExt_bind bcsExt_readAddr fun _ => ?_
  refine bcsExt_bind bcsExt_readU64 fun _ => ?_
  exact bcsExt_bind bcsExt_readAddr fun _ => bcsExt_pure _

theorem bcsExt_decVaultTransferCreated : BcsExt decVaultTransferCreated := by
  unfold decVaultTransferCreated
  simp only [Bind.bind, Pure.pure]
  refine bcsExt_bind bcsExt_readAddr fun _ => ?_
  refine bcsExt_bind bcsExt_readAddr fun _ => ?_
  refine bcsExt_bind bcsExt_readAddr fun _ => ?_
  refine bcsExt_bind bcsExt_readU64 fun _ => ?_
  exact bcsExt_bind bcsExt_readAddr fun _ => bcsExt_pure _

theorem bcsExt_decPositionLiquidated : BcsExt decPositionLiquidated := by
  unfold decPositionLiquidated
  simp only [Bind.bind, Pure.pure]
  exact bcsExt_bind bcsExt_readAddr fun _ => bcsExt_pure _

theorem bcsExt_decMarkerLiquidated : BcsExt decMarkerLiquidated := by
  unfold decMarkerLiquidated
  simp only [Bind.bind, Pure.pure]
  refine bcsExt_bind bcsExt_readAddr fun _ => ?_
  exact bcsExt_bind bcsExt_readAddr fun _ => bcsExt_pure _

/-! ## Numeric casts, hex encoding, chrono timestamps -/

/-- Rust `x as i32` on a `u64`: two's-complement wrap into `[-2^31, 2^31)`. -/
def i32wrap (n : Nat) : Int :=
  let m : Nat := n % 2 ^ 32
  if m < 2 ^ 31 then (m : Int) else (m : Int) - 2 ^ 32

/-- Rust `x as i64` on a `u64`: two's-complement wrap into `[-2^63, 2^63)`. -/
def i64wrap (n : Nat) : Int :=
  let m : Nat := n % 2 ^ 64
  if m < 2 ^ 63 then (m : Int) else (m : Int) - 2 ^ 64

/-- Rust `u64::try_into::<i64>()`: checked, fails above `i64::MAX`. -/
def u64ToI64Checked (n : Nat) : Option Int :=
  if n < 2 ^ 63 then some (n : Int) else none

/-- `BigDecimal::from_u64`: total on `u64` (never returns `None`). -/
def bigDecimalFromU64 (n : Nat) : Option Nat := some n

/-- `BigDecimal::from_u16`: total on `u16`. -/
def bigDecimalFromU16 (n : Nat) : Option Nat := some n

/-- Lowercase hex digit. -/
def hexDigit (n : Nat) : Char :=
  if n < 10 then Char.ofNat (48 + n) else Char.ofNat (87 + n)

/-- `hex::encode` of one byte: two lowercase hex digits. -/
def hexByte (b : Nat) : String :=
  String.mk [hexDigit (b / 16 % 16), hexDigit (b % 16)]

/-- `hex::encode`: lowercase hex string of a byte list, no "0x". -/
def hexEncode (bs : List Nat) : String := String.join (bs.map hexByte)

/-- `events/common.rs` `convert_sui_address_to_hex_string` (also
`SuiAddress::to_string`): "0x"-prefixed lowercase hex. -/
def convert_sui_address_to_hex_string (a : List Nat) : String := "0x" ++ hexEncode a

/-- `events/common.rs` `position_type_to_string`. -/
def position_type_to_string (short : Bool) : String := if short then "Short" else "Long"

/-- `events/common.rs` `transfer_to_string`. -/
def transfer_to_string (toUser : Bool) : String := if toUser then "User" else "Vault"

/-- Days from 1970-01-01 of a proleptic-Gregorian civil date
(Howard Hinnant's `days_from_civil`, used to model chrono's date range).
The algorithm is written for C++/Rust truncating integer division, so the
divisions are `Int.tdiv` (Lean's `/` on `Int` rounds differently on
negative operands). -/
def daysFromCivil (y m d : Int) : Int :=
  let y' := if m ≤ 2 then y - 1 else y
  let era : Int := Int.tdiv (if 0 ≤ y' then y' else y' - 399) 400
  let yoe := y' - era * 400
  let doy := Int.tdiv (153 * (if 2 < m then m - 3 else m + 9) + 2) 5 + d - 1
  let doe := yoe * 365 + Int.tdiv yoe 4 - Int.tdiv yoe 100 + doy
  era * 146097 + doe - 719468

/-- Smallest epoch-millisecond value representable by a chrono
`NaiveDateTime` (year -262144, Jan 1, 00:00:00.000). -/
def chronoMinMs : Int := daysFromCivil (-262144) 1 1 * 86400000

/-- Largest epoch-millisecond value representable by a chrono
`NaiveDateTime` (year 262143, Dec 31, 23:59:59.999). -/
def chronoMaxMs : Int := daysFromCivil 262143 12 31 * 86400000 + 86399999

/-- `worker.rs` `PositionEventWorker::timestamp_ms_to_datetime`: the `u64`
checkpoint timestamp is cast with `as i64` (wrapping) and fed to
`Utc.timestamp_millis_opt(..).single()`, which is `Some` exactly on
chrono's representable range.  The produced datetime is carried as its
epoch-millisecond value. -/
def PositionEventWorker.timestamp_ms_to_datetime (timestamp_ms : Nat) : Option Int :=
  let v := i64wrap timestamp_ms
  if chronoMinMs ≤ v ∧ v ≤ chronoMaxMs then some v else none

/-! ## Database rows (`src/indexer/src/db/models/*.rs`)

Timestamps are epoch milliseconds (`Int`); `BigDecimal` columns that only
ever hold `u64` values are `Nat`; `Int4`/`Int8` columns are `Int`. -/

/-- `models/new_account_event.rs` (table `new_account_events`, PK
`transaction_hash`). -/
structure NewAccountRow where
  transaction_hash : String
  account_id : String
  stats_id : String
  timestamp : Int
  deriving DecidableEq

/-- `models/open_position_events.rs` (table `open_position_events`, PK
`transaction_hash`). -/
structure OpenPositionRow where
  transaction_hash : String
  position_id : String
  position_type : String
  amount : Nat
  leverage_multiplier : Nat
  entry_price : Nat
  entry_price_decimals : Int
  supported_positions_token_i : Int
  price_feed_id_bytes : String
  account_id : String
  timestamp : Int
  deriving DecidableEq

/-- `models/close_position_events.rs` (table `close_position_events`, PK
`transaction_hash`). -/
structure ClosePositionRow where
  transaction_hash : String
  position_id : String
  position_type : String
  amount : Nat
  leverage_multiplier : Nat
  entry_price : Nat
  entry_price_decimals : Int
  close_price : Nat
  close_price_decimals : Int
  price_delta : Nat
  transfer_amount : Nat
  transfer_to : String
  account_id : String
  timestamp : Int
  deriving DecidableEq

/-- `models/vault_created_events.rs` (table `vault_created_events`, PK
`transaction_hash`); the token-info strings stay as UTF-8 byte lists. -/
structure VaultCreatedRow where
  transaction_hash : String
  vault_address : String
  vault_marker_address : String
  coin_token_info : List Nat
  lp_token_info : List Nat
  timestamp : Int
  deriving DecidableEq

/-- `models/collateral_deposit_event.rs` (table `collateral_deposit_events`,
PK `transaction_hash`).  The token column pair follows the model struct
(`token_account_address`, `token_creation_num`); the repository's
token-filtered query filters on this stored token column (named
`token_address` in `schema.rs`). -/
structure DepositRow where
  transaction_hash : String
  collateral_id : String
  collateral_marker_id : String
  account_id : String
  token_account_address : String
  token_creation_num : Int
  amount : Nat
  timestamp : Int
  deriving DecidableEq

/-- `models/start_collateral_value_assertion_event.rs` (table
`start_collateral_value_assertion_events`, PK `cva_id`). -/
structure CvaRow where
  cva_id : String
  transaction_hash : String
  account_id : String
  program_id : String
  num_open_collateral_objects : Int
  timestamp : Int
  deriving DecidableEq

/-- `models/collateral_transfer.rs` (table `collateral_transfers`, PK
`transfer_id` per `schema.rs`). -/
structure CollateralTransferRow where
  transaction_hash : String
  transfer_id : String
  collateral_marker_id : String
  collateral_address : String
  amount : Nat
  to_vault_address : String
  fulfilled : Bool
  timestamp : Int
  deriving DecidableEq

/-- `models/vault_transfer.rs` (table `vault_transfers`, PK `transfer_id`
per `schema.rs`). -/
structure VaultTransferRow where
  transaction_hash : String
  transfer_id : String
  vault_marker_id : String
  vault_address : String
  amount : Nat
  to_user_address : String
  fulfilled : Bool
  timestamp : Int
  deriving DecidableEq

/-- `models/position_liquidated_event.rs` (table `position_liquidated_events`,
PK `transaction_hash`). -/
structure PositionLiquidatedRow where
  transaction_hash : String
  position_id : String
  timestamp : Int
  deriving DecidableEq

/-- `models/collateral_marker_liquidated_event.rs` (table
`collateral_marker_liquidated_events`, PK `transaction_hash`). -/
structure MarkerLiquidatedRow where
  transaction_hash : String
  collateral_marker_id : String
  account_id : String
  timestamp : Int
  deriving DecidableEq

/-- `models/collateral_withdraw_event.rs`: stored row with surrogate serial
PK `id`. -/
structure WithdrawRow where
  id : Nat
  transaction_hash : String
  collateral_id : String
  collateral_marker_id : String
  account_id : String
  token_address : String
  withdrawn_amount : Nat
  marker_destroyed : Bool
  remaining_amount_in_marker : Nat
  timestamp : Int
  deriving DecidableEq

/-- `models/collateral_withdraw_event.rs`: insertable row (no `id`). -/
structure NewWithdrawRow where
  transaction_hash : String
  collateral_id : String
  collateral_marker_id : String
  account_id : String
  token_address : String
  withdrawn_amount : Nat
  marker_destroyed : Bool
  remaining_amount_in_marker : Nat
  timestamp : Int
  deriving DecidableEq

/-- `models/collateral_combine_event.rs`: stored row with surrogate serial
PK `id`. -/
structure CombineRow where
  id : Nat
  transaction_hash : String
  old_collateral_id1 : String
  old_collateral_marker_id1 : String
  old_collateral_id2 : String
  old_collateral_marker_id2 : String
  new_collateral_id : String
  new_collateral_marker_id : String
  account_id : String
  token_address : String
  combined_amount : Nat
  timestamp : Int
  deriving DecidableEq

/-- `models/collateral_combine_event.rs`: insertable row (no `id`). -/
structure NewCombineRow where
  transaction_hash : String
  old_collateral_id1 : String
  old_collateral_marker_id1 : String
  old_collateral_id2 : String
  old_collateral_marker_id2 : String
  new_collateral_id : String
  new_collateral_marker_id : String
  account_id : String
  token_address : String
  combined_amount : Nat
  timestamp : Int
  deriving DecidableEq

/-- The relational database: one list per table, plus the next serial id of
the two surrogate-keyed tables. -/
structure Db where
  opens : List OpenPositionRow := []
  closes : List ClosePositionRow := []
  vaults : List VaultCreatedRow := []
  accounts : List NewAccountRow := []
  deposits : List DepositRow := []
  cvas : List CvaRow := []
  collateralTransfers : List CollateralTransferRow := []
  vaultTransfers : List VaultTransferRow := []
  positionLiquidations : List PositionLiquidatedRow := []
  markerLiquidations : List MarkerLiquidatedRow := []
  withdraws : List WithdrawRow := []
  combines : List CombineRow := []
  withdrawNextId : Nat := 0
  combineNextId : Nat := 0
  deriving DecidableEq

/-! ## Persistence repositories (`src/indexer/src/db/repositories/*.rs`)

Each `create` takes `connOk : Bool` — the outcome of `get_conn()` on the
pooled connection — and returns the Diesel result together with the updated
database.  A `get_result` on an insert that affected no row (`ON CONFLICT DO
NOTHING` hit a conflict) surfaces as Diesel's `NotFound`. -/

inductive DbErr where
  | connErr
  | notFound
  | uniqueViolation
  deriving DecidableEq

/-- `repositories/new_account_event.rs` `create`: insert with
`on_conflict(transaction_hash).do_nothing().get_result(..)`; a conflict
yields `NotFound` which is mapped to an error (there is no re-read). -/
def NewAccountEventRepository.create (connOk : Bool) (db : Db) (r : NewAccountRow) :
    Except DbErr NewAccountRow × Db :=
  if connOk then
    if db.accounts.any (fun a => a.transaction_hash == r.transaction_hash) then
      (Except.error DbErr.notFound, db)
    else
      (Except.ok r, { db with accounts := db.accounts ++ [r] })
  else (Except.error DbErr.connErr, db)

/-- `repositories/collateral_deposit_event.rs` `create`: insert with
`on_conflict(transaction_hash).do_nothing().get_result(..)`; on `NotFound`
the existing row with that transaction hash is re-read and returned. -/
def CollateralDepositEventRepository.create (connOk : Bool) (db : Db) (r : DepositRow) :
    Except DbErr DepositRow × Db :=
  if connOk then
    match db.deposits.find? (fun d => d.transaction_hash == r.transaction_hash) with
    | some existing => (Except.ok existing, db)
    | none => (Except.ok r, { db with deposits := db.deposits ++ [r] })
  else (Except.error DbErr.connErr, db)

/-- `repositories/start_collateral_value_assertion_event.rs` `create`:
insert with `on_conflict(cva_id).do_nothing().get_result(..)`; a conflict
yields `NotFound` mapped to an error (no re-read). -/
def StartCollateralValueAssertionEventRepository.create (connOk : Bool) (db : Db) (r : CvaRow) :
    Except DbErr CvaRow × Db :=
  if connOk then
    if db.cvas.any (fun c => c.cva_id == r.cva_id) then
      (Except.error DbErr.notFound, db)
    else
      (Except.ok r, { db with cvas := db.cvas ++ [r] })
  else (Except.error DbErr.connErr, db)

/-- `repositories/collateral_marker_liquidated_event.rs` `create`: plain
insert (`insert_into(..).values(..).get_result(..)`, no conflict clause);
a duplicate primary key (`transaction_hash`) is a unique violation. -/
def CollateralMarkerLiquidatedEventRepository.create (connOk : Bool) (db : Db)
    (r : MarkerLiquidatedRow) : Except DbErr MarkerLiquidatedRow × Db :=
  if connOk then
    if db.markerLiquidations.any (fun m => m.transaction_hash == r.transaction_hash) then
      (Except.error DbErr.uniqueViolation, db)
    else
      (Except.ok r, { db with markerLiquidations := db.markerLiquidations ++ [r] })
  else (Except.error DbErr.connErr, db)

/-- `repositories/collateral_withdraw_event.rs` `create`: plain insert under
the surrogate serial key `id`; it never conflicts and always appends. -/
def CollateralWithdrawEventRepository.create (connOk : Bool) (db : Db) (r : NewWithdrawRow) :
    Except DbErr WithdrawRow × Db :=
  if connOk then
    let row : WithdrawRow :=
      { id := db.withdrawNextId,
        transaction_hash := r.transaction_hash,
        collateral_id := r.collateral_id,
        collateral_marker_id := r.collateral_marker_id,
        account_id := r.account_id,
        token_address := r.token_address,
        withdrawn_amount := r.withdrawn_amount,
        marker_destroyed := r.marker_destroyed,
        remaining_amount_in_marker := r.remaining_amount_in_marker,
        timestamp := r.timestamp }
    (Except.ok row,
      { db with withdraws := db.withdraws ++ [row], withdrawNextId := db.withdrawNextId + 1 })
  else (Except.error DbErr.connErr, db)

/-- `repositories/collateral_combine_event.rs` `create`: plain insert under
the surrogate serial key `id`; it never conflicts and always appends. -/
def CollateralCombineEventRepository.create (connOk : Bool) (db : Db) (r : NewCombineRow) :
    Except DbErr CombineRow × Db :=
  if connOk then
    let row : CombineRow :=
      { id := db.combineNextId,
        transaction_hash := r.transaction_hash,
        old_collateral_id1 := r.old_collateral_id1,
        old_collateral_marker_id1 := r.old_collateral_marker_id1,
        old_collateral_id2 := r.old_collateral_id2,
        old_collateral_marker_id2 := r.old_collateral_marker_id2,
        new_collateral_id := r.new_collateral_id,
        new_collateral_marker_id := r.new_collateral_marker_id,
        account_id := r.account_id,
        token_address := r.token_address,
        combined_amount := r.combined_amount,
        timestamp := r.timestamp }
    (Except.ok row,
      { db with combines := db.combines ++ [row], combineNextId := db.combineNextId + 1 })
  else (Except.error DbErr.connErr, db)

/-- `repositories/open_position_events.rs` `create`: plain insert, PK
`transaction_hash`. -/
def OpenPositionEventRepository.create (connOk : Bool) (db : Db) (r : OpenPositionRow) :
    Except DbErr OpenPositionRow × Db :=
  if connOk then
    if db.opens.any (fun o => o.transaction_hash == r.transaction_hash) then
      (Except.error DbErr.uniqueViolation, db)
    else
      (Except.ok r, { db with opens := db.opens ++ [r] })
  else (Except.error DbErr.connErr, db)

/-- `repositories/close_position_events.rs` `create`: plain insert, PK
`transaction_hash`. -/
def ClosePositionEventRepository.create (connOk : Bool) (db : Db) (r : ClosePositionRow) :
    Except DbErr ClosePositionRow × Db :=
  if connOk then
    if db.closes.any (fun c => c.transaction_hash == r.transaction_hash) then
      (Except.error DbErr.uniqueViolation, db)
    else
      (Except.ok r, { db with closes := db.closes ++ [r] })
  else (Except.error DbErr.connErr, db)

/-- `repositories/vault_created_events.rs` `create`: plain insert, PK
`transaction_hash`. -/
def VaultCreatedEventRepository.create (connOk : Bool) (db : Db) (r : VaultCreatedRow) :
    Except DbErr VaultCreatedRow × Db :=
  if connOk then
    if db.vaults.any (fun v => v.transaction_hash == r.transaction_hash) then
      (Except.error DbErr.uniqueViolation, db)
    else
      (Except.ok r, { db with vaults := db.vaults ++ [r] })
  else (Except.error DbErr.connErr, db)

/-- `repositories/collateral_transfer.rs` `create`: plain insert, PK
`transfer_id`. -/
def CollateralTransferRepository.create (connOk : Bool) (db : Db) (r : CollateralTransferRow) :
    Except DbErr CollateralTransferRow × Db :=
  if connOk then
    if db.collateralTransfers.any (fun t => t.transfer_id == r.transfer_id) then
      (Except.error DbErr.uniqueViolation, db)
    else
      (Except.ok r, { db with collateralTransfers := db.collateralTransfers ++ [r] })
  else (Except.error DbErr.connErr, db)

/-- `repositories/vault_transfer.rs` `create`: plain insert, PK `transfer_id`. -/
def VaultTransferRepository.create (connOk : Bool) (db : Db) (r : VaultTransferRow) :
    Except DbErr VaultTransferRow × Db :=
  if connOk then
    if db.vaultTransfers.any (fun t => t.transfer_id == r.transfer_id) then
      (Except.error DbErr.uniqueViolation, db)
    else
      (Except.ok r, { db with vaultTransfers := db.vaultTransfers ++ [r] })
  else (Except.error DbErr.connErr, db)

/-- `repositories/position_liquidated_event.rs` `create`: insert with
`on_conflict(transaction_hash).do_nothing().get_result(..)`; a conflict
yields `NotFound` which is mapped to an error (there is no re-read). -/
def PositionLiquidatedEventRepository.create (connOk : Bool) (db : Db)
    (r : PositionLiquidatedRow) : Except DbErr PositionLiquidatedRow × Db :=
  if connOk then
    if db.positionLiquidations.any (fun p => p.transaction_hash == r.transaction_hash) then
      (Except.error DbErr.notFound, db)
    else
      (Except.ok r, { db with positionLiquidations := db.positionLiquidations ++ [r] })
  else (Except.error DbErr.connErr, db)

/-- `repositories/vault_created_events.rs` `find_by_vault_address`: first row
whose `vault_address` equals the argument, `None` when there is none. -/
def VaultCreatedEventRepository.find_by_vault_address (db : Db) (address : String) :
    Option VaultCreatedRow :=
  db.vaults.find? (fun v => v.vault_address == address)

/-- `repositories/collateral_deposit_event.rs` `find_by_account_id`: deposits
of the account whose marker survives the three `NOT EXISTS` anti-joins
(liquidated markers, destroyed withdrawals, combine sources). -/
def CollateralDepositEventRepository.find_by_account_id (connOk : Bool) (db : Db)
    (target_account_id : String) : Except DbErr (List DepositRow) :=
  if connOk then
    Except.ok (db.deposits.filter (fun d =>
      d.account_id == target_account_id
      && !(db.markerLiquidations.any (fun lq =>
             lq.collateral_marker_id == d.collateral_marker_id))
      && !(db.withdraws.any (fun w =>
             w.collateral_marker_id == d.collateral_marker_id && w.marker_destroyed))
      && !(db.combines.any (fun c =>
             c.old_collateral_marker_id1 == d.collateral_marker_id
             || c.old_collateral_marker_id2 == d.collateral_marker_id))))
  else Except.error DbErr.connErr

/-- `repositories/collateral_deposit_event.rs`
`find_by_account_id_and_token_address`: same anti-joins with an additional
equality filter on the stored token column. -/
def CollateralDepositEventRepository.find_by_account_id_and_token_address (connOk : Bool)
    (db : Db) (target_account_id target_token_address : String) :
    Except DbErr (List DepositRow) :=
  if connOk then
    Except.ok (db.deposits.filter (fun d =>
      d.account_id == target_account_id
      && d.token_account_address == target_token_address
      && !(db.markerLiquidations.any (fun lq =>
             lq.collateral_marker_id == d.collateral_marker_id))
      && !(db.withdraws.any (fun w =>
             w.collateral_marker_id == d.collateral_marker_id && w.marker_destroyed))
      && !(db.combines.any (fun c =>
             c.old_collateral_marker_id1 == d.collateral_marker_id
             || c.old_collateral_marker_id2 == d.collateral_marker_id))))
  else Except.error DbErr.connErr

/-- `repositories/open_position_events.rs` `get_open_positions_for_account`:
the raw `NOT EXISTS` SQL — rows of `open_position_events` for the account
with no `close_position_events` row sharing their `position_id`. -/
def OpenPositionEventRepository.get_open_positions_for_account (connOk : Bool) (db : Db)
    (target_account_id : String) : Except DbErr (List OpenPositionRow) :=
  if connOk then
    Except.ok (db.opens.filter (fun o =>
      o.account_id == target_account_id
      && !(db.closes.any (fun c => c.position_id == o.position_id))))
  else Except.error DbErr.connErr

/-! ## Field mapping (`try_map_to_db` in `src/indexer/src/events/*.rs`) -/

/-- `anyhow`'s `.context(..)` on an `Option`. -/
def optContext (o : Option α) (msg : String) : Except String α :=
  match o with
  | some a => Except.ok a
  | none => Except.error msg

/-- `events/position_created.rs` `try_map_to_db`.  Note the two `as` casts:
`entry_price_decimals as i32` (lossless from `u8`) and
`supported_positions_token_i as i32` (wrapping from `u64`). -/
def PositionCreatedEvent.try_map_to_db (e : MovePositionCreatedEvent) (tx_digest : String)
    (timestamp : Int) : Except String OpenPositionRow := do
  let amount ← optContext (bigDecimalFromU64 e.amount)
    "Failed to convert amount to BigDecimal"
  let lev ← optContext (bigDecimalFromU16 e.leverage_multiplier)
    "Failed to convert leverage_multiplier to BigDecimal"
  let ep ← optContext (bigDecimalFromU64 e.entry_price)
    "Failed to convert entry_price to BigDecimal"
  return { transaction_hash := tx_digest,
           position_id := "0x" ++ hexEncode e.position_id,
           position_type := position_type_to_string e.position_type,
           amount := amount,
           leverage_multiplier := lev,
           entry_price := ep,
           entry_price_decimals := (e.entry_price_decimals : Int),
           supported_positions_token_i := i32wrap e.supported_positions_token_i,
           price_feed_id_bytes := hexEncode e.price_feed_id_bytes,
           account_id := "0x" ++ hexEncode e.account_id,
           timestamp := timestamp }

/-- `events/position_closed.rs` `try_map_to_db`. -/
def PositionClosedEvent.try_map_to_db (e : MovePositionClosedEvent) (tx_digest : String)
    (timestamp : Int) : Except String ClosePositionRow := do
  let amount ← optContext (bigDecimalFromU64 e.amount)
    "Failed to convert amount to BigDecimal"
  let lev ← optContext (bigDecimalFromU16 e.leverage_multiplier)
    "Failed to convert leverage_multiplier to BigDecimal"
  let ep ← optContext (bigDecimalFromU64 e.entry_price)
    "Failed to convert entry_price to BigDecimal"
  let cp ← optContext (bigDecimalFromU64 e.close_price)
    "Failed to convert close_price to BigDecimal"
  let pd ← optContext (bigDecimalFromU64 e.price_delta)
    "Failed to convert price_delta to BigDecimal"
  let ta ← optContext (bigDecimalFromU64 e.transfer_amount)
    "Failed to convert transfer_amount to BigDecimal"
  return { transaction_hash := tx_digest,
           position_id := "0x" ++ hexEncode e.position_id,
           position_type := position_type_to_string e.position_type,
           amount := amount,
           leverage_multiplier := lev,
           entry_price := ep,
           entry_price_decimals := (e.entry_price_decimals : Int),
           close_price := cp,
           close_price_decimals := (e.close_price_decimals : Int),
           price_delta := pd,
           transfer_amount := ta,
           transfer_to := transfer_to_string e.transfer_to,
           account_id := "0x" ++ hexEncode e.account_id,
           timestamp := timestamp }

/-- `events/vault_created.rs` `try_map_to_db` (infallible). -/
def VaultCreatedEvent.try_map_to_db (e : MoveVaultCreatedEvent) (tx_digest : String)
    (timestamp : Int) : Except String VaultCreatedRow :=
  Except.ok { transaction_hash := tx_digest,
              vault_address := "0x" ++ hexEncode e.vault_address,
              vault_marker_address := "0x" ++ hexEncode e.vault_marker_address,
              coin_token_info := e.coin_token_info,
              lp_token_info := e.lp_token_info,
              timestamp := timestamp }

/-- `events/new_account_event.rs` `try_map_to_db` (infallible; ids stored
without "0x"). -/
def NewAccountEvent.try_map_to_db (e : MoveNewAccountEvent) (tx_digest : String)
    (timestamp : Int) : Except String NewAccountRow :=
  Except.ok { transaction_hash := tx_digest,
              account_id := hexEncode e.account_id,
              stats_id := hexEncode e.stats_id,
              timestamp := timestamp }

/-- `events/collateral_deposit_event.rs` `try_map_to_db`: `amount` through
`BigDecimal::from_u64`, `token_id.creation_num` through the checked
`try_into::<i64>()`. -/
def CollateralDepositEvent.try_map_to_db (e : MoveCollateralDepositEvent) (tx_digest : String)
    (timestamp : Int) : Except String DepositRow := do
  let amount ← optContext (bigDecimalFromU64 e.amount)
    "Failed to convert amount u64 to BigDecimal"
  let tcn ← optContext (u64ToI64Checked e.token_id.creation_num)
    "Failed to convert token_id.creation_num u64 to i64"
  return { transaction_hash := tx_digest,
           collateral_id := hexEncode e.collateral_id,
           collateral_marker_id := hexEncode e.collateral_marker_id,
           account_id := hexEncode e.account_id,
           token_account_address := hexEncode e.token_id.account_address,
           token_creation_num := tcn,
           amount := amount,
           timestamp := timestamp }

/-- `events/start_collateral_value_assertion_event.rs` `try_map_to_db`: note
`num_open_collateral_objects as i64` — a wrapping cast. -/
def StartCollateralValueAssertionEvent.try_map_to_db
    (e : MoveStartCollateralValueAssertionEvent) (tx_digest : String) (timestamp : Int) :
    Except String CvaRow :=
  Except.ok { cva_id := hexEncode e.cva_id,
              transaction_hash := tx_digest,
              account_id := hexEncode e.account_id,
              program_id := hexEncode e.program_id,
              num_open_collateral_objects := i64wrap e.num_open_collateral_objects,
              timestamp := timestamp }

/-- `events/collateral_transfer_created.rs` `try_map_to_db` (infallible;
`fulfilled` is always `false`). -/
def CollateralTransferCreatedEvent.try_map_to_db (e : MoveCollateralTransferCreatedEvent)
    (tx_digest : String) (timestamp : Int) : Except String CollateralTransferRow :=
  Except.ok { transaction_hash := tx_digest,
              transfer_id := convert_sui_address_to_hex_string e.transfer_id,
              collateral_marker_id := convert_sui_address_to_hex_string e.collateral_marker_id,
              collateral_address := convert_sui_address_to_hex_string e.collateral_address,
              amount := e.amount,
              to_vault_address := convert_sui_address_to_hex_string e.to_vault_address,
              fulfilled := false,
              timestamp := timestamp }

/-- `events/vault_transfer_created.rs` `try_map_to_db` (infallible;
`fulfilled` is always `false`). -/
def VaultTransferCreatedEvent.try_map_to_db (e : MoveVaultTransferCreatedEvent)
    (tx_digest : String) (timestamp : Int) : Except String VaultTransferRow :=
  Except.ok { transaction_hash := tx_digest,
              transfer_id := convert_sui_address_to_hex_string e.transfer_id,
              vault_marker_id := convert_sui_address_to_hex_string e.vault_marker_id,
              vault_address := convert_sui_address_to_hex_string e.vault_address,
              amount := e.amount,
              to_user_address := convert_sui_address_to_hex_string e.to_user_address,
              fulfilled := false,
              timestamp := timestamp }

/-- `events/position_liquidated.rs` `try_map_to_db` (infallible). -/
def PositionLiquidatedEvent.try_map_to_db (e : MovePositionLiquidatedEvent)
    (tx_digest : String) (timestamp : Int) : Except String PositionLiquidatedRow :=
  Except.ok { transaction_hash := tx_digest,
              position_id := "0x" ++ hexEncode e.position_id,
              timestamp := timestamp }

/-- `events/collateral_marker_liquidated.rs` `try_map_to_db` (infallible;
ids stored without "0x"). -/
def CollateralMarkerLiquidatedEvent.try_map_to_db (e : MoveCollateralMarkerLiquidatedEvent)
    (tx_digest : String) (timestamp : Int) : Except String MarkerLiquidatedRow :=
  Except.ok { transaction_hash := tx_digest,
              collateral_marker_id := hexEncode e.collateral_marker_id,
              account_id := hexEncode e.account_id,
              timestamp := timestamp }

/-! ## Checkpoint dispatcher (`src/indexer/src/worker.rs`) and callbacks
(`src/indexer/src/callbacks/transfers_callbacks.rs`) -/

/-- An outbound HTTP notification to the liquidation/settlement service. -/
inductive HttpCall where
  | executeVaultTransfer (transfer_id vault_address vault_marker_id : String)
      (amount : Nat) (to_user_address : String)
  | executeCollateralTransfer (transfer_id collateral_address to_vault_address
      vault_marker_id collateral_marker_id : String) (amount : Nat)
  deriving DecidableEq

/-- Observable state threaded through checkpoint processing: the database,
the number of pool-connection acquisitions attempted so far, and the HTTP
calls fired. -/
structure World where
  db : Db := {}
  connCount : Nat := 0
  httpCalls : List HttpCall := []
  deriving DecidableEq

/-- Environment oracle: whether the k-th `get_conn()` on the shared pool
fails (pool exhaustion / connection error). -/
structure Oracle where
  connFail : Nat → Bool

/-- The oracle under which every connection acquisition succeeds. -/
def noConnFail : Oracle := ⟨fun _ => false⟩

/-- Run one repository call: consume a connection-acquisition attempt and
apply the repository function to the database. -/
def stepStore (o : Oracle) (w : World) (f : Bool → Db → Except DbErr ρ × Db) : World :=
  let r := f (!o.connFail w.connCount) w.db
  { db := r.2, connCount := w.connCount + 1, httpCalls := w.httpCalls }

/-- `transfers_callbacks.rs` `on_vault_transfer_created`: unconditionally
POSTs to `{service_url}/execute_vault_transfer`; the response is only
logged. -/
def transfers_callbacks.on_vault_transfer_created (e : MoveVaultTransferCreatedEvent)
    (w : World) : World :=
  { w with httpCalls := w.httpCalls ++
      [HttpCall.executeVaultTransfer
        (convert_sui_address_to_hex_string e.transfer_id)
        (convert_sui_address_to_hex_string e.vault_address)
        (convert_sui_address_to_hex_string e.vault_marker_id)
        e.amount
        (convert_sui_address_to_hex_string e.to_user_address)] }

/-- `transfers_callbacks.rs` `on_collateral_transfer_created`: first resolves
the destination vault through
`VaultCreatedEventRepository::find_by_vault_address`; on `Ok(None)` or a
store error it returns (logging) without any HTTP call; otherwise it POSTs
to `{service_url}/execute_collateral_transfer` with the vault's marker id. -/
def transfers_callbacks.on_collateral_transfer_created (o : Oracle)
    (e : MoveCollateralTransferCreatedEvent) (w : World) : World :=
  let connOk := !o.connFail w.connCount
  let w1 : World := { w with connCount := w.connCount + 1 }
  if connOk then
    match VaultCreatedEventRepository.find_by_vault_address w1.db
        (convert_sui_address_to_hex_string e.to_vault_address) with
    | some vault_event =>
        { w1 with httpCalls := w1.httpCalls ++
            [HttpCall.executeCollateralTransfer
              (convert_sui_address_to_hex_string e.transfer_id)
              (convert_sui_address_to_hex_string e.collateral_address)
              (convert_sui_address_to_hex_string e.to_vault_address)
              vault_event.vault_marker_address
              (convert_sui_address_to_hex_string e.collateral_marker_id)
              e.amount] }
    | none => w1
  else w1

/-! ### Per-kind event handlers (the branch bodies of `process_checkpoint`).
Decode failure, mapping failure and store failure are each logged and leave
the rest of the pipeline untouched. -/

def stepPositionCreated (o : Oracle) (t : Int) (digest : String) (contents : List Nat)
    (w : World) : World :=
  match fromBytes decPositionCreated contents with
  | none => w
  | some ev =>
    match PositionCreatedEvent.try_map_to_db ev digest t with
    | Except.error _ => w
    | Except.ok row => stepStore o w (fun c db => OpenPositionEventRepository.create c db row)

def stepPositionClosed (o : Oracle) (t : Int) (digest : String) (contents : List Nat)
    (w : World) : World :=
  match fromBytes decPositionClosed contents with
  | none => w
  | some ev =>
    match PositionClosedEvent.try_map_to_db ev digest t with
    | Except.error _ => w
    | Except.ok row => stepStore o w (fun c db => ClosePositionEventRepository.create c db row)

def stepVaultCreated (o : Oracle) (t : Int) (digest : String) (contents : List Nat)
    (w : World) : World :=
  match fromBytes decVaultCreated contents with
  | none => w
  | some ev =>
    match VaultCreatedEvent.try_map_to_db ev digest t with
    | Except.error _ => w
    | Except.ok row => stepStore o w (fun c db => VaultCreatedEventRepository.create c db row)

def stepNewAccount (o : Oracle) (t : Int) (digest : String) (contents : List Nat)
    (w : World) : World :=
  match fromBytes decNewAccount contents with
  | none => w
  | some ev =>
    match NewAccountEvent.try_map_to_db ev digest t with
    | Except.error _ => w
    | Except.ok row => stepStore o w (fun c db => NewAccountEventRepository.create c db row)

def stepCollateralDeposit (o : Oracle) (t : Int) (digest : String) (contents : List Nat)
    (w : World) : World :=
  match fromBytes decCollateralDeposit contents with
  | none => w
  | some ev =>
    match CollateralDepositEvent.try_map_to_db ev digest t with
    | Except.error _ => w
    | Except.ok row => stepStore o w (fun c db => CollateralDepositEventRepository.create c db row)

def stepStartCva (o : Oracle) (t : Int) (digest : String) (contents : List Nat)
    (w : World) : World :=
  match fromBytes decStartCva contents with
  | none => w
  | some ev =>
    match StartCollateralValueAssertionEvent.try_map_to_db ev digest t with
    | Except.error _ => w
    | Except.ok row =>
      stepStore o w (fun c db => StartCollateralValueAssertionEventRepository.create c db row)

def stepCollateralTransferCreated (o : Oracle) (t : Int) (digest : String)
    (contents : List Nat) (w : World) : World :=
  match fromBytes decCollateralTransferCreated contents with
  | none => w
  | some ev =>
    let w1 := transfers_callbacks.on_collateral_transfer_created o ev w
    match CollateralTransferCreatedEvent.try_map_to_db ev digest t with
    | Except.error _ => w1
    | Except.ok row => stepStore o w1 (fun c db => CollateralTransferRepository.create c db row)

def stepVaultTransferCreated (o : Oracle) (t : Int) (digest : String)
    (contents : List Nat) (w : World) : World :=
  match fromBytes decVaultTransferCreated contents with
  | none => w
  | some ev =>
    let w1 := transfers_callbacks.on_vault_transfer_created ev w
    match VaultTransferCreatedEvent.try_map_to_db ev digest t with
    | Except.error _ => w1
    | Except.ok row => stepStore o w1 (fun c db => VaultTransferRepository.create c db row)

def stepPositionLiquidated (o : Oracle) (t : Int) (digest : String) (contents : List Nat)
    (w : World) : World :=
  match fromBytes decPositionLiquidated contents with
  | none => w
  | some ev =>
    match PositionLiquidatedEvent.try_map_to_db ev digest t with
    | Except.error _ => w
    | Except.ok row =>
      stepStore o w (fun c db => PositionLiquidatedEventRepository.create c db row)

def stepMarkerLiquidated (o : Oracle) (t : Int) (digest : String) (contents : List Nat)
    (w : World) : World :=
  match fromBytes decMarkerLiquidated contents with
  | none => w
  | some ev =>
    match CollateralMarkerLiquidatedEvent.try_map_to_db ev digest t with
    | Except.error _ => w
    | Except.ok row =>
      stepStore o w (fun c db => CollateralMarkerLiquidatedEventRepository.create c db row)

/-- The ten type-tag strings held by `PositionEventWorker`. -/
structure WorkerConfig where
  position_created_event_type : String
  position_closed_event_type : String
  vault_created_event_type : String
  new_account_event_type : String
  collateral_deposit_event_type : String
  start_collateral_value_assertion_event_type : String
  collateral_transfer_created_event_type : String
  vault_transfer_created_event_type : String
  position_liquidated_event_type : String
  collateral_marker_liquidated_event_type : String

/-- `PositionEventWorker::new`: the type-tag catalogue built once from the
configured package id. -/
def PositionEventWorker.new (package_id : String) : WorkerConfig :=
  { position_created_event_type := package_id ++ "::positions::PositionCreatedEvent",
    position_closed_event_type := package_id ++ "::positions::PositionClosedEvent",
    vault_created_event_type := package_id ++ "::lp::VaultCreatedEvent",
    new_account_event_type := package_id ++ "::accounts::NewAccountEvent",
    collateral_deposit_event_type := package_id ++ "::collateral::CollateralDepositEvent",
    start_collateral_value_assertion_event_type :=
      package_id ++ "::collateral::StartCollateralValueAssertionEvent",
    collateral_transfer_created_event_type :=
      package_id ++ "::collateral::CollateralTransferCreated",
    vault_transfer_created_event_type := package_id ++ "::lp::VaultTransferCreated",
    position_liquidated_event_type := package_id ++ "::positions::PositionLiquidatedEvent",
    collateral_marker_liquidated_event_type :=
      package_id ++ "::collateral::CollateralMarkerLiquidatedEvent" }

/-- One event of a transaction: its fully-qualified type tag and raw BCS
payload bytes. -/
structure EventInput where
  type_tag : String
  contents : List Nat

/-- One transaction of a checkpoint: canonical digest and optional events. -/
structure TxInput where
  digest : String
  events : Option (List EventInput)

/-- A checkpoint as consumed by the worker. -/
structure Checkpoint where
  sequence_number : Nat
  timestamp_ms : Nat
  transactions : List TxInput

/-- The if/else dispatch chain over the ten recognized type tags, in source
order; an unmatched tag is ignored. -/
def handleEvent (cfg : WorkerConfig) (o : Oracle) (t : Int) (digest : String)
    (ev : EventInput) (w : World) : World :=
  if ev.type_tag == cfg.position_created_event_type then
    stepPositionCreated o t digest ev.contents w
  else if ev.type_tag == cfg.position_closed_event_type then
    stepPositionClosed o t digest ev.contents w
  else if ev.type_tag == cfg.vault_created_event_type then
    stepVaultCreated o t digest ev.contents w
  else if ev.type_tag == cfg.new_account_event_type then
    stepNewAccount o t digest ev.contents w
  else if ev.type_tag == cfg.collateral_deposit_event_type then
    stepCollateralDeposit o t digest ev.contents w
  else if ev.type_tag == cfg.start_collateral_value_assertion_event_type then
    stepStartCva o t digest ev.contents w
  else if ev.type_tag == cfg.collateral_transfer_created_event_type then
    stepCollateralTransferCreated o t digest ev.contents w
  else if ev.type_tag == cfg.vault_transfer_created_event_type then
    stepVaultTransferCreated o t digest ev.contents w
  else if ev.type_tag == cfg.position_liquidated_event_type then
    stepPositionLiquidated o t digest ev.contents w
  else if ev.type_tag == cfg.collateral_marker_liquidated_event_type then
    stepMarkerLiquidated o t digest ev.contents w
  else w

/-- Sequential scan of one transaction's events (none when the transaction
has no event list). -/
def processTransaction (cfg : WorkerConfig) (o : Oracle) (t : Int) (tx : TxInput)
    (w : World) : World :=
  match tx.events with
  | none => w
  | some evs => evs.foldl (fun w e => handleEvent cfg o t tx.digest e w) w

/-- `PositionEventWorker::process_checkpoint`: converts the checkpoint
timestamp once (propagating its failure with `?`), then sequentially scans
every transaction and event, and returns `Ok(())`. -/
def PositionEventWorker.process_checkpoint (cfg : WorkerConfig) (o : Oracle)
    (cp : Checkpoint) (w : World) : Except String Unit × World :=
  match PositionEventWorker.timestamp_ms_to_datetime cp.timestamp_ms with
  | none => (Except.error "Invalid or out-of-range timestamp", w)
  | some t =>
    (Except.ok (),
      cp.transactions.foldl (fun w tx => processTransaction cfg o t tx w) w)

/-! ## General fold-preservation infrastructure -/

theorem foldl_preserves {σ : Type} {P : σ → σ → Prop} (hrefl : ∀ w, P w w)
    (htrans : ∀ a b c, P a b → P b c → P a c)
    {α : Type} {f : σ → α → σ} (hf : ∀ w x, P w (f w x)) :
    ∀ (l : List α) (w : σ), P w (l.foldl f w) := by
  intro l
  induction l with
  | nil => intro w; exact hrefl w
  | cons x xs ih =>
    intro w
    exact htrans _ _ _ (hf w x) (ih (f w x))

/-- The withdraw and combine tables (and their serial counters) of a world. -/
def wcState (w : World) : List WithdrawRow × List CombineRow × Nat × Nat :=
  (w.db.withdraws, w.db.combines, w.db.withdrawNextId, w.db.combineNextId)

theorem wcState_stepStore (o : Oracle) (w : World)
    {ρ : Type} (f : Bool → Db → Except DbErr ρ × Db)
    (hf : ∀ c db, ((f c db).2.withdraws, (f c db).2.combines,
      (f c db).2.withdrawNextId, (f c db).2.combineNextId) =
      (db.withdraws, db.combines, db.withdrawNextId, db.combineNextId)) :
    wcState (stepStore o w f) = wcState w := by
  simp only [wcState, stepStore]
  have := hf (!o.connFail w.connCount) w.db
  simp_all

theorem wcState_stepPositionCreated (o t d c w) :
    wcState (stepPositionCreated o t d c w) = wcState w := by
  unfold stepPositionCreated
  split
  · rfl
  · split
    · rfl
    · refine wcState_stepStore o w _ ?_
      intro c db
      simp only [OpenPositionEventRepository.create]
      split <;> [skip; rfl]
      split <;> rfl

theorem wcState_stepPositionClosed (o t d c w) :
    wcState (stepPositionClosed o t d c w) = wcState w := by
  unfold stepPositionClosed
  split
  · rfl
  · split
    · rfl
    · refine wcState_stepStore o w _ ?_
      intro c db
      simp only [ClosePositionEventRepository.create]
      split <;> [skip; rfl]
      split <;> rfl

theorem wcState_stepVaultCreated (o t d c w) :
    wcState (stepVaultCreated o t d c w) = wcState w := by
  unfold stepVaultCreated
  split
  · rfl
  · split
    · rfl
    · refine wcState_stepStore o w _ ?_
      intro c db
      simp only [VaultCreatedEventRepository.create]
      split <;> [skip; rfl]
      split <;> rfl

theorem wcState_stepNewAccount (o t d c w) :
    wcState (stepNewAccount o t d c w) = wcState w := by
  unfold stepNewAccount
  split
  · rfl
  · split
    · rfl
    · refine wcState_stepStore o w _ ?_
      intro c db
      simp only [NewAccountEventRepository.create]
      split <;> [skip; rfl]
      split <;> rfl

theorem wcState_stepCollateralDeposit (o t d c w) :
    wcState (stepCollateralDeposit o t d c w) = wcState w := by
  unfold stepCollateralDeposit
  split
  · rfl
  · split
    · rfl
    · refine wcState_stepStore o w _ ?_
      intro c db
      simp only [CollateralDepositEventRepository.create]
      split <;> [skip; rfl]
      split <;> rfl

theorem wcState_stepStartCva (o t d c w) :
    wcState (stepStartCva o t d c w) = wcState w := by
  unfold stepStartCva
  split
  · rfl
  · split
    · rfl
    · refine wcState_stepStore o w _ ?_
      intro c db
      simp only [StartCollateralValueAssertionEventRepository.create]
      split <;> [skip; rfl]
      split <;> rfl

theorem wcState_onCollateralTransferCreated (o e w) :
    wcState (transfers_callbacks.on_collateral_transfer_created o e w) = wcState w := by
  unfold transfers_callbacks.on_collateral_transfer_created
  simp only []
  split
  · split <;> rfl
  · rfl

theorem wcState_stepCollateralTransferCreated (o t d c w) :
    wcState (stepCollateralTransferCreated o t d c w) = wcState w := by
  unfold stepCollateralTransferCreated
  split
  · rfl
  · split
    · exact wcState_onCollateralTransferCreated ..
    · rw [wcState_stepStore]
      · exact wcState_onCollateralTransferCreated ..
      · intro c db
        simp only [CollateralTransferRepository.create]
        split <;> [skip; rfl]
        split <;> rfl

theorem wcState_stepVaultTransferCreated (o t d c w) :
    wcState (stepVaultTransferCreated o t d c w) = wcState w := by
  unfold stepVaultTransferCreated
  split
  · rfl
  · split
    · rfl
    · rw [wcState_stepStore]
      · rfl
      · intro c db
        simp only [VaultTransferRepository.create]
        split <;> [skip; rfl]
        split <;> rfl

theorem wcState_stepPositionLiquidated (o t d c w) :
    wcState (stepPositionLiquidated o t d c w) = wcState w := by
  unfold stepPositionLiquidated
  split
  · rfl
  · split
    · rfl
    · refine wcState_stepStore o w _ ?_
      intro c db
      simp only [PositionLiquidatedEventRepository.create]
      split <;> [skip; rfl]
      split <;> rfl

theorem wcState_stepMarkerLiquidated (o t d c w) :
    wcState (stepMarkerLiquidated o t d c w) = wcState w := by
  unfold stepMarkerLiquidated
  split
  · rfl
  · split
    · rfl
    · refine wcState_stepStore o w _ ?_
      intro c db
      simp only [CollateralMarkerLiquidatedEventRepository.create]
      split <;> [skip; rfl]
      split <;> rfl

theorem wcState_handleEvent (cfg o t d ev w) :
    wcState (handleEvent cfg o t d ev w) = wcState w := by
  unfold handleEvent
  split
  · exact wcState_stepPositionCreated ..
  · split
    · exact wcState_stepPositionClosed ..
    · split
      · exact wcState_stepVaultCreated ..
      · split
        · exact wcState_stepNewAccount ..
        · split
          · exact wcState_stepCollateralDeposit ..
          · split
            · exact wcState_stepStartCva ..
            · split
              · exact wcState_stepCollateralTransferCreated ..
              · split
                · exact wcState_stepVaultTransferCreated ..
                · split
                  · exact wcState_stepPositionLiquidated ..
                  · split
                    · exact wcState_stepMarkerLiquidated ..
                    · rfl

theorem wcState_processTransaction (cfg o t tx w) :
    wcState (processTransaction cfg o t tx w) = wcState w := by
  unfold processTransaction
  split
  · rfl
  · exact foldl_preserves (P := fun a b => wcState b = wcState a)
      (fun _ => rfl) (fun a b c h1 h2 => h2.trans h1)
      (fun w e => wcState_handleEvent cfg o t _ e w) _ w

/-! ## Claims C5, C6, C10 -/

/-- C5: for every checkpoint whose timestamp converts successfully,
`process_checkpoint` returns success after scanning every transaction and
event, regardless of per-event outcomes (any payloads, any store-failure
oracle); the final state is the sequential fold of the per-event handler, and
handling an event list decomposes sequentially, so a failure inside any event
only determines that event's state transition and never interrupts the
remaining events. -/
theorem process_checkpoint_ok_whenever_timestamp_ok (cfg : WorkerConfig) (o : Oracle)
    (cp : Checkpoint) (w : World) (t : Int)
    (h : PositionEventWorker.timestamp_ms_to_datetime cp.timestamp_ms = some t) :
    (PositionEventWorker.process_checkpoint cfg o cp w).1 = Except.ok () ∧
    (PositionEventWorker.process_checkpoint cfg o cp w).2 =
      cp.transactions.foldl (fun w tx => processTransaction cfg o t tx w) w ∧
    (∀ (evs1 evs2 : List EventInput) (digest : String) (w' : World),
      (evs1 ++ evs2).foldl (fun w e => handleEvent cfg o t digest e w) w' =
        evs2.foldl (fun w e => handleEvent cfg o t digest e w)
          (evs1.foldl (fun w e => handleEvent cfg o t digest e w) w')) := by
  unfold PositionEventWorker.process_checkpoint
  rw [h]
  exact ⟨rfl, rfl, fun evs1 evs2 digest w' => List.foldl_append ..⟩

/-- Witness for C5 at a concrete checkpoint (epoch timestamp 0 converts). -/
theorem process_checkpoint_ok_whenever_timestamp_ok_witness :
    (PositionEventWorker.process_checkpoint (PositionEventWorker.new "0xp") noConnFail
      ⟨0, 0, []⟩ {}).1 = Except.ok () :=
  (process_checkpoint_ok_whenever_timestamp_ok (PositionEventWorker.new "0xp") noConnFail
    ⟨0, 0, []⟩ {} 0 (by decide)).1

/-- C6 counterexample: `timestamp_ms = 2^64 - 1` is, as a number of epoch
milliseconds, far beyond chrono's representable range, yet the wrapping
`as i64` cast lands it at -1 ms — a valid 1969 datetime — so the conversion
succeeds and the checkpoint is processed with success.  This refutes
"returns an error if and only if that value is outside the representable
range": the error depends on the wrapped signed value, not on the u64. -/
theorem process_checkpoint_timestamp_wrap_counterexample :
    chronoMaxMs < ((2 ^ 64 - 1 : Nat) : Int) ∧
    PositionEventWorker.timestamp_ms_to_datetime (2 ^ 64 - 1) = some (-1) ∧
    (PositionEventWorker.process_checkpoint (PositionEventWorker.new "0xp") noConnFail
      ⟨0, 2 ^ 64 - 1, []⟩ {}).1 = Except.ok () := by
  exact ⟨by decide, by decide, by rfl⟩

/-- C6 amended: `process_checkpoint` computes exactly one wall-clock
timestamp per checkpoint by casting the u64 epoch-millisecond field with the
wrapping `as i64` and range-checking the result; it returns an error if and
only if that *wrapped* signed value is outside chrono's representable
range, and in that case the state is untouched — the checkpoint fails
before any event is processed.  (u64 values close enough to `2^64` wrap
into the valid negative range and are silently accepted as pre-1970
datetimes.) -/
theorem process_checkpoint_error_iff_wrapped_out_of_range (cfg : WorkerConfig) (o : Oracle)
    (cp : Checkpoint) (w : World) :
    ((PositionEventWorker.process_checkpoint cfg o cp w).1 ≠ Except.ok () ↔
      ¬ (chronoMinMs ≤ i64wrap cp.timestamp_ms ∧ i64wrap cp.timestamp_ms ≤ chronoMaxMs)) ∧
    (¬ (chronoMinMs ≤ i64wrap cp.timestamp_ms ∧ i64wrap cp.timestamp_ms ≤ chronoMaxMs) →
      (PositionEventWorker.process_checkpoint cfg o cp w).2 = w) := by
  unfold PositionEventWorker.process_checkpoint PositionEventWorker.timestamp_ms_to_datetime
  by_cases h : chronoMinMs ≤ i64wrap cp.timestamp_ms ∧ i64wrap cp.timestamp_ms ≤ chronoMaxMs
  · simp [h]
  · simp [h]

/-- Witness for (amended) C6: `timestamp_ms = 2^63` wraps to `i64::MIN`,
below chrono's range, so the checkpoint fails with the state unchanged. -/
theorem process_checkpoint_error_iff_wrapped_out_of_range_witness :
    (PositionEventWorker.process_checkpoint (PositionEventWorker.new "0xp") noConnFail
      ⟨0, 2 ^ 63, []⟩ {}).2 = ({} : World) :=
  (process_checkpoint_error_iff_wrapped_out_of_range (PositionEventWorker.new "0xp")
    noConnFail ⟨0, 2 ^ 63, []⟩ {}).2 (by decide)

/-- C10: checkpoint processing never writes the collateral-withdraw or
collateral-combine tables — the dispatcher has no branch for those kinds, so
the two tables feeding the live-collateral anti-join are left exactly as they
were, for every checkpoint, oracle and starting state. -/
theorem process_checkpoint_frame_withdraw_combine (cfg : WorkerConfig) (o : Oracle)
    (cp : Checkpoint) (w : World) :
    (PositionEventWorker.process_checkpoint cfg o cp w).2.db.withdraws = w.db.withdraws ∧
    (PositionEventWorker.process_checkpoint cfg o cp w).2.db.combines = w.db.combines := by
  unfold PositionEventWorker.process_checkpoint
  cases h : PositionEventWorker.timestamp_ms_to_datetime cp.timestamp_ms with
  | none => exact ⟨rfl, rfl⟩
  | some t =>
    have hw : wcState (cp.transactions.foldl
        (fun w tx => processTransaction cfg o t tx w) w) = wcState w :=
      foldl_preserves (P := fun a b => wcState b = wcState a)
        (fun _ => rfl) (fun a b c h1 h2 => h2.trans h1)
        (fun w tx => wcState_processTransaction cfg o t tx w) cp.transactions w
    simp only [wcState, Prod.mk.injEq] at hw
    exact ⟨hw.1, hw.2.1⟩

/-! ## Claim C9 infrastructure -/

/-- The two transfer tables of a world. -/
def tState (w : World) : List CollateralTransferRow × List VaultTransferRow :=
  (w.db.collateralTransfers, w.db.vaultTransfers)

/-- Rows added to the transfer tables all carry `fulfilled = false`. -/
def FulfilledFalseNew (w w' : World) : Prop :=
  (∀ r ∈ w'.db.collateralTransfers, r ∈ w.db.collateralTransfers ∨ r.fulfilled = false) ∧
  (∀ r ∈ w'.db.vaultTransfers, r ∈ w.db.vaultTransfers ∨ r.fulfilled = false)

theorem fulfilledFalseNew_refl (w : World) : FulfilledFalseNew w w :=
  ⟨fun _ hr => Or.inl hr, fun _ hr => Or.inl hr⟩

theorem fulfilledFalseNew_trans (a b c : World) (h1 : FulfilledFalseNew a b)
    (h2 : FulfilledFalseNew b c) : FulfilledFalseNew a c := by
  refine ⟨fun r hr => ?_, fun r hr => ?_⟩
  · rcases h2.1 r hr with h | h
    · exact h1.1 r h
    · exact Or.inr h
  · rcases h2.2 r hr with h | h
    · exact h1.2 r h
    · exact Or.inr h

theorem fulfilledFalseNew_of_tState_eq {w w' : World} (h : tState w' = tState w) :
    FulfilledFalseNew w w' := by
  simp only [tState, Prod.mk.injEq] at h
  exact ⟨fun r hr => Or.inl (h.1 ▸ hr), fun r hr => Or.inl (h.2 ▸ hr)⟩

theorem tState_stepStore (o : Oracle) (w : World)
    {ρ : Type} (f : Bool → Db → Except DbErr ρ × Db)
    (hf : ∀ c db, ((f c db).2.collateralTransfers, (f c db).2.vaultTransfers) =
      (db.collateralTransfers, db.vaultTransfers)) :
    tState (stepStore o w f) = tState w := by
  simp only [tState, stepStore]
  have := hf (!o.connFail w.connCount) w.db
  simp_all

theorem tState_stepPositionCreated (o t d c w) :
    tState (stepPositionCreated o t d c w) = tState w := by
  unfold stepPositionCreated
  split
  · rfl
  · split
    · rfl
    · refine tState_stepStore o w _ ?_
      intro c db
      simp only [OpenPositionEventRepository.create]
      split <;> [skip; rfl]
      split <;> rfl

theorem tState_stepPositionClosed (o t d c w) :
    tState (stepPositionClosed o t d c w) = tState w := by
  unfold stepPositionClosed
  split
  · rfl
  · split
    · rfl
    · refine tState_stepStore o w _ ?_
      intro c db
      simp only [ClosePositionEventRepository.create]
      split <;> [skip; rfl]
      split <;> rfl

theorem tState_stepVaultCreated (o t d c w) :
    tState (stepVaultCreated o t d c w) = tState w := by
  unfold stepVaultCreated
  split
  · rfl
  · split
    · rfl
    · refine tState_stepStore o w _ ?_
      intro c db
      simp only [VaultCreatedEventRepository.create]
      split <;> [skip; rfl]
      split <;> rfl

theorem tState_stepNewAccount (o t d c w) :
    tState (stepNewAccount o t d c w) = tState w := by
  unfold stepNewAccount
  split
  · rfl
  · split
    · rfl
    · refine tState_stepStore o w _ ?_
      intro c db
      simp only [NewAccountEventRepository.create]
      split <;> [skip; rfl]
      split <;> rfl

theorem tState_stepCollateralDeposit (o t d c w) :
    tState (stepCollateralDeposit o t d c w) = tState w := by
  unfold stepCollateralDeposit
  split
  · rfl
  · split
    · rfl
    · refine tState_stepStore o w _ ?_
      intro c db
      simp only [CollateralDepositEventRepository.create]
      split <;> [skip; rfl]
      split <;> rfl

theorem tState_stepStartCva (o t d c w) :
    tState (stepStartCva o t d c w) = tState w := by
  unfold stepStartCva
  split
  · rfl
  · split
    · rfl
    · refine tState_stepStore o w _ ?_
      intro c db
      simp only [StartCollateralValueAssertionEventRepository.create]
      split <;> [skip; rfl]
      split <;> rfl

theorem tState_stepPositionLiquidated (o t d c w) :
    tState (stepPositionLiquidated o t d c w) = tState w := by
  unfold stepPositionLiquidated
  split
  · rfl
  · split
    · rfl
    · refine tState_stepStore o w _ ?_
      intro c db
      simp only [PositionLiquidatedEventRepository.create]
      split <;> [skip; rfl]
      split <;> rfl

theorem tState_stepMarkerLiquidated (o t d c w) :
    tState (stepMarkerLiquidated o t d c w) = tState w := by
  unfold stepMarkerLiquidated
  split
  · rfl
  · split
    · rfl
    · refine tState_stepStore o w _ ?_
      intro c db
      simp only [CollateralMarkerLiquidatedEventRepository.create]
      split <;> [skip; rfl]
      split <;> rfl

theorem tState_onCollateralTransferCreated (o e w) :
    tState (transfers_callbacks.on_collateral_transfer_created o e w) = tState w := by
  unfold transfers_callbacks.on_collateral_transfer_created
  simp only []
  split
  · split <;> rfl
  · rfl

theorem tState_onVaultTransferCreated (e w) :
    tState (transfers_callbacks.on_vault_transfer_created e w) = tState w := rfl

theorem fulfilled_store_collateral (o : Oracle) (w1 : World) (row : CollateralTransferRow)
    (hrow : row.fulfilled = false) :
    FulfilledFalseNew w1 (stepStore o w1 (fun c db => CollateralTransferRepository.create c db row)) := by
  simp only [stepStore, CollateralTransferRepository.create]
  split
  · split
    · exact fulfilledFalseNew_of_tState_eq rfl
    · refine ⟨fun r hr => ?_, fun r hr => Or.inl hr⟩
      rcases List.mem_append.mp hr with h | h
      · exact Or.inl h
      · exact Or.inr ((List.mem_singleton.mp h) ▸ hrow)
  · exact fulfilledFalseNew_of_tState_eq rfl

theorem fulfilled_store_vault (o : Oracle) (w1 : World) (row : VaultTransferRow)
    (hrow : row.fulfilled = false) :
    FulfilledFalseNew w1 (stepStore o w1 (fun c db => VaultTransferRepository.create c db row)) := by
  simp only [stepStore, VaultTransferRepository.create]
  split
  · split
    · exact fulfilledFalseNew_of_tState_eq rfl
    · refine ⟨fun r hr => Or.inl hr, fun r hr => ?_⟩
      rcases List.mem_append.mp hr with h | h
      · exact Or.inl h
      · exact Or.inr ((List.mem_singleton.mp h) ▸ hrow)
  · exact fulfilledFalseNew_of_tState_eq rfl

theorem fulfilled_stepCollateralTransferCreated (o t d c w) :
    FulfilledFalseNew w (stepCollateralTransferCreated o t d c w) := by
  unfold stepCollateralTransferCreated
  split
  next => exact fulfilledFalseNew_refl w
  next ev hdec =>
    split
    next msg hm =>
      exact fulfilledFalseNew_of_tState_eq (tState_onCollateralTransferCreated o ev w)
    next row hm =>
      have hrow : row.fulfilled = false := by
        simp only [CollateralTransferCreatedEvent.try_map_to_db, Except.ok.injEq] at hm
        rw [← hm]
      exact fulfilledFalseNew_trans _ _ _
        (fulfilledFalseNew_of_tState_eq (tState_onCollateralTransferCreated o ev w))
        (fulfilled_store_collateral o _ row hrow)

theorem fulfilled_stepVaultTransferCreated (o t d c w) :
    FulfilledFalseNew w (stepVaultTransferCreated o t d c w) := by
  unfold stepVaultTransferCreated
  split
  next => exact fulfilledFalseNew_refl w
  next ev hdec =>
    split
    next msg hm =>
      exact fulfilledFalseNew_of_tState_eq (tState_onVaultTransferCreated ev w)
    next row hm =>
      have hrow : row.fulfilled = false := by
        simp only [VaultTransferCreatedEvent.try_map_to_db, Except.ok.injEq] at hm
        rw [← hm]
      exact fulfilledFalseNew_trans _ _ _
        (fulfilledFalseNew_of_tState_eq (tState_onVaultTransferCreated ev w))
        (fulfilled_store_vault o _ row hrow)

theorem fulfilled_handleEvent (cfg o t d ev w) :
    FulfilledFalseNew w (handleEvent cfg o t d ev w) := by
  unfold handleEvent
  split
  · exact fulfilledFalseNew_of_tState_eq (tState_stepPositionCreated ..)
  · split
    · exact fulfilledFalseNew_of_tState_eq (tState_stepPositionClosed ..)
    · split
      · exact fulfilledFalseNew_of_tState_eq (tState_stepVaultCreated ..)
      · split
        · exact fulfilledFalseNew_of_tState_eq (tState_stepNewAccount ..)
        · split
          · exact fulfilledFalseNew_of_tState_eq (tState_stepCollateralDeposit ..)
          · split
            · exact fulfilledFalseNew_of_tState_eq (tState_stepStartCva ..)
            · split
              · exact fulfilled_stepCollateralTransferCreated ..
              · split
                · exact fulfilled_stepVaultTransferCreated ..
                · split
                  · exact fulfilledFalseNew_of_tState_eq (tState_stepPositionLiquidated ..)
                  · split
                    · exact fulfilledFalseNew_of_tState_eq (tState_stepMarkerLiquidated ..)
                    · exact fulfilledFalseNew_refl w

theorem fulfilled_processTransaction (cfg o t tx w) :
    FulfilledFalseNew w (processTransaction cfg o t tx w) := by
  unfold processTransaction
  split
  · exact fulfilledFalseNew_refl w
  · exact foldl_preserves fulfilledFalseNew_refl fulfilledFalseNew_trans
      (fun w e => fulfilled_handleEvent cfg o t _ e w) _ w

/-- C9: every collateral-transfer and vault-transfer row that checkpoint
processing adds has `fulfilled = false`, and no ingestion-path operation sets
`fulfilled` to `true` on a stored row: after processing, every transfer row
either already existed or is unfulfilled. -/
theorem ingestion_transfer_rows_unfulfilled (cfg : WorkerConfig) (o : Oracle)
    (cp : Checkpoint) (w : World) :
    (∀ r ∈ (PositionEventWorker.process_checkpoint cfg o cp w).2.db.collateralTransfers,
      r ∈ w.db.collateralTransfers ∨ r.fulfilled = false) ∧
    (∀ r ∈ (PositionEventWorker.process_checkpoint cfg o cp w).2.db.vaultTransfers,
      r ∈ w.db.vaultTransfers ∨ r.fulfilled = false) := by
  unfold PositionEventWorker.process_checkpoint
  cases h : PositionEventWorker.timestamp_ms_to_datetime cp.timestamp_ms with
  | none => exact fulfilledFalseNew_refl w
  | some t =>
    exact foldl_preserves fulfilledFalseNew_refl fulfilledFalseNew_trans
      (fun w tx => fulfilled_processTransaction cfg o t tx w) cp.transactions w

/-- Witness for C9: a pre-existing (even fulfilled) row is untouched by an
empty checkpoint, satisfying the disjunction through its left branch. -/
theorem ingestion_transfer_rows_unfulfilled_witness :
    (⟨"h", "0x01", "0x02", "0x03", 5, "0x04", true, 0⟩ : CollateralTransferRow) ∈
      ({ db := { collateralTransfers := [⟨"h", "0x01", "0x02", "0x03", 5, "0x04", true, 0⟩] } } : World).db.collateralTransfers ∨
    (⟨"h", "0x01", "0x02", "0x03", 5, "0x04", true, 0⟩ : CollateralTransferRow).fulfilled = false :=
  (ingestion_transfer_rows_unfulfilled (PositionEventWorker.new "0xp") noConnFail
    ⟨0, 0, []⟩
    { db := { collateralTransfers := [⟨"h", "0x01", "0x02", "0x03", 5, "0x04", true, 0⟩] } }).1
    ⟨"h", "0x01", "0x02", "0x03", 5, "0x04", true, 0⟩ (by decide)

/-! ## Claims C2 and C3: derived-view (anti-join) characterizations -/

/-- C2: the live-collateral queries return exactly the deposits of the
account (optionally of the token) whose marker appears in none of the
liquidated-marker table, a destroyed withdrawal, or a combine row's two
consumed source markers; a deposit whose marker appears in any of the three
is never returned, one appearing in none always is. -/
theorem live_collateral_membership (db : Db) (acct tok : String) (d : DepositRow) :
    (∀ l, CollateralDepositEventRepository.find_by_account_id true db acct = Except.ok l →
      (d ∈ l ↔ d ∈ db.deposits ∧ d.account_id = acct ∧
        (¬ ∃ lq ∈ db.markerLiquidations,
          lq.collateral_marker_id = d.collateral_marker_id) ∧
        (¬ ∃ wr ∈ db.withdraws,
          wr.collateral_marker_id = d.collateral_marker_id ∧ wr.marker_destroyed = true) ∧
        (¬ ∃ cb ∈ db.combines,
          cb.old_collateral_marker_id1 = d.collateral_marker_id ∨
          cb.old_collateral_marker_id2 = d.collateral_marker_id))) ∧
    (∀ l, CollateralDepositEventRepository.find_by_account_id_and_token_address true db acct tok
        = Except.ok l →
      (d ∈ l ↔ d ∈ db.deposits ∧ d.account_id = acct ∧ d.token_account_address = tok ∧
        (¬ ∃ lq ∈ db.markerLiquidations,
          lq.collateral_marker_id = d.collateral_marker_id) ∧
        (¬ ∃ wr ∈ db.withdraws,
          wr.collateral_marker_id = d.collateral_marker_id ∧ wr.marker_destroyed = true) ∧
        (¬ ∃ cb ∈ db.combines,
          cb.old_collateral_marker_id1 = d.collateral_marker_id ∨
          cb.old_collateral_marker_id2 = d.collateral_marker_id))) := by
  constructor
  · intro l hl
    simp only [CollateralDepositEventRepository.find_by_account_id, if_true,
      Except.ok.injEq] at hl
    subst hl
    simp only [List.mem_filter, Bool.and_eq_true, Bool.not_eq_true', List.any_eq_false,
      List.any_eq_true, beq_iff_eq, beq_eq_false_iff_ne, Bool.or_eq_false_iff,
      Bool.and_eq_false_iff, Bool.or_eq_true, not_exists, not_and, not_or, ne_eq, and_assoc]
  · intro l hl
    simp only [CollateralDepositEventRepository.find_by_account_id_and_token_address, if_true,
      Except.ok.injEq] at hl
    subst hl
    simp only [List.mem_filter, Bool.and_eq_true, Bool.not_eq_true', List.any_eq_false,
      List.any_eq_true, beq_iff_eq, beq_eq_false_iff_ne, Bool.or_eq_false_iff,
      Bool.and_eq_false_iff, Bool.or_eq_true, not_exists, not_and, not_or, ne_eq, and_assoc]

/-- C3: the open-positions query returns all and only the position-opened
rows of the account for which no position-closed row shares the position id. -/
theorem open_positions_membership (db : Db) (acct : String) (p : OpenPositionRow) :
    ∀ l, OpenPositionEventRepository.get_open_positions_for_account true db acct = Except.ok l →
      (p ∈ l ↔ p ∈ db.opens ∧ p.account_id = acct ∧
        (¬ ∃ cl ∈ db.closes, cl.position_id = p.position_id)) := by
  intro l hl
  simp only [OpenPositionEventRepository.get_open_positions_for_account, if_true,
    Except.ok.injEq] at hl
  subst hl
  simp only [List.mem_filter, Bool.and_eq_true, Bool.not_eq_true', List.any_eq_false,
    List.any_eq_true, beq_iff_eq, beq_eq_false_iff_ne, not_exists, not_and, ne_eq, and_assoc]

/-- Witness row and state for C2. -/
def c2Deposit : DepositRow := ⟨"tx1", "c1", "m1", "a1", "t1", 0, 5, 0⟩

def c2Db : Db := { deposits := [c2Deposit] }

/-- Witness for C2 at a one-deposit database with no consuming rows. -/
theorem live_collateral_membership_witness :
    c2Deposit ∈ [c2Deposit] ↔ c2Deposit ∈ c2Db.deposits ∧ c2Deposit.account_id = "a1" ∧
      (¬ ∃ lq ∈ c2Db.markerLiquidations,
        lq.collateral_marker_id = c2Deposit.collateral_marker_id) ∧
      (¬ ∃ wr ∈ c2Db.withdraws,
        wr.collateral_marker_id = c2Deposit.collateral_marker_id ∧
          wr.marker_destroyed = true) ∧
      (¬ ∃ cb ∈ c2Db.combines,
        cb.old_collateral_marker_id1 = c2Deposit.collateral_marker_id ∨
        cb.old_collateral_marker_id2 = c2Deposit.collateral_marker_id) :=
  (live_collateral_membership c2Db "a1" "t1" c2Deposit).1 [c2Deposit] (by rfl)

/-- Witness row and state for C3. -/
def c3Open : OpenPositionRow := ⟨"tx1", "0xp1", "Long", 1, 1, 1, 0, 0, "", "a1", 0⟩

def c3Db : Db := { opens := [c3Open] }

/-- Witness for C3 at a one-position database with no closes. -/
theorem open_positions_membership_witness :
    c3Open ∈ [c3Open] ↔ c3Open ∈ c3Db.opens ∧ c3Open.account_id = "a1" ∧
      (¬ ∃ cl ∈ c3Db.closes, cl.position_id = c3Open.position_id) :=
  open_positions_membership c3Db "a1" c3Open [c3Open] (by rfl)

/-! ## Claim C1: conflict behaviour of `create()` by kind -/

/-- `find?` on a list ending in the only matching element. -/
theorem find?_append_singleton {α : Type} (p : α → Bool) (l : List α) (r : α)
    (h : ∀ x ∈ l, p x = false) (hr : p r = true) : (l ++ [r]).find? p = some r := by
  induction l with
  | nil => simp [List.find?, hr]
  | cons x xs ih =>
    have hx := h x (by simp)
    simp only [List.cons_append, List.find?, hx]
    exact ih (fun y hy => h y (by simp [hy]))

/-- C1 counterexample: for the account-open kind, replaying the same
transaction hash errors — the second `create()` maps the conflict's
`NotFound` to an error instead of re-reading, contradicting "calling
create() twice with the same natural key never errors". -/
theorem account_create_replay_errors_counterexample :
    (NewAccountEventRepository.create true
      (NewAccountEventRepository.create true {} ⟨"h1", "a1", "s1", 0⟩).2
      ⟨"h1", "a1", "s1", 0⟩).1 = Except.error DbErr.notFound := by
  rfl

/-- C1 amended: only the collateral-deposit kind implements
insert-do-nothing-then-re-read and is idempotent (two creates with the same
transaction hash leave exactly one new row and the second call returns the
first row with the state unchanged).  Account-open and assertion-start use
do-nothing without a re-read, so a replayed key yields a `NotFound` error
and no state change; marker-liquidated uses a plain insert whose replay is a
unique violation; collateral-withdraw uses a plain insert under a surrogate
serial key, so every call — including a replay — appends a fresh row. -/
theorem create_conflict_behavior_by_kind :
    (∀ (db : Db) (r : DepositRow),
      (∀ d ∈ db.deposits, (d.transaction_hash == r.transaction_hash) = false) →
      CollateralDepositEventRepository.create true db r =
        (Except.ok r, { db with deposits := db.deposits ++ [r] }) ∧
      CollateralDepositEventRepository.create true
          { db with deposits := db.deposits ++ [r] } r =
        (Except.ok r, { db with deposits := db.deposits ++ [r] })) ∧
    (∀ (db : Db) (r : NewAccountRow),
      (∃ a ∈ db.accounts, a.transaction_hash = r.transaction_hash) →
      NewAccountEventRepository.create true db r = (Except.error DbErr.notFound, db)) ∧
    (∀ (db : Db) (r : CvaRow),
      (∃ cv ∈ db.cvas, cv.cva_id = r.cva_id) →
      StartCollateralValueAssertionEventRepository.create true db r =
        (Except.error DbErr.notFound, db)) ∧
    (∀ (db : Db) (r : MarkerLiquidatedRow),
      (∃ m ∈ db.markerLiquidations, m.transaction_hash = r.transaction_hash) →
      CollateralMarkerLiquidatedEventRepository.create true db r =
        (Except.error DbErr.uniqueViolation, db)) ∧
    (∀ (db : Db) (r : NewWithdrawRow),
      ((CollateralWithdrawEventRepository.create true db r).2.withdraws).length =
        db.withdraws.length + 1) := by
  refine ⟨?_, ?_, ?_, ?_, ?_⟩
  · intro db r h
    constructor
    · simp only [CollateralDepositEventRepository.create, if_true]
      rw [List.find?_eq_none.mpr (fun d hd => by simp [h d hd])]
    · simp only [CollateralDepositEventRepository.create, if_true]
      rw [find?_append_singleton _ _ _ h (by simp)]
  · intro db r h
    simp only [NewAccountEventRepository.create, if_true]
    rw [if_pos]
    simp only [List.any_eq_true, beq_iff_eq]
    exact h
  · intro db r h
    simp only [StartCollateralValueAssertionEventRepository.create, if_true]
    rw [if_pos]
    simp only [List.any_eq_true, beq_iff_eq]
    exact h
  · intro db r h
    simp only [CollateralMarkerLiquidatedEventRepository.create, if_true]
    rw [if_pos]
    simp only [List.any_eq_true, beq_iff_eq]
    exact h
  · intro db r
    simp [CollateralWithdrawEventRepository.create]

/-- Witness for (amended) C1: the deposit kind really is idempotent at a
concrete row, and a replayed account-open create really errors. -/
theorem create_conflict_behavior_by_kind_witness :
    (CollateralDepositEventRepository.create true {} ⟨"h1", "c1", "m1", "a1", "t1", 0, 5, 0⟩ =
      (Except.ok ⟨"h1", "c1", "m1", "a1", "t1", 0, 5, 0⟩,
        { deposits := [⟨"h1", "c1", "m1", "a1", "t1", 0, 5, 0⟩] }) ∧
     CollateralDepositEventRepository.create true
        { deposits := [⟨"h1", "c1", "m1", "a1", "t1", 0, 5, 0⟩] }
        ⟨"h1", "c1", "m1", "a1", "t1", 0, 5, 0⟩ =
      (Except.ok ⟨"h1", "c1", "m1", "a1", "t1", 0, 5, 0⟩,
        { deposits := [⟨"h1", "c1", "m1", "a1", "t1", 0, 5, 0⟩] })) ∧
    NewAccountEventRepository.create true { accounts := [⟨"h1", "a1", "s1", 0⟩] }
        ⟨"h1", "a1", "s1", 0⟩ =
      (Except.error DbErr.notFound, { accounts := [⟨"h1", "a1", "s1", 0⟩] }) := by
  have h1 := create_conflict_behavior_by_kind.1 {} ⟨"h1", "c1", "m1", "a1", "t1", 0, 5, 0⟩
    (by simp)
  have h2 := create_conflict_behavior_by_kind.2.1 { accounts := [⟨"h1", "a1", "s1", 0⟩] }
    ⟨"h1", "a1", "s1", 0⟩ ⟨⟨"h1", "a1", "s1", 0⟩, by simp, rfl⟩
  exact ⟨⟨h1.1, h1.2⟩, h2⟩

/-! ## Claim C4: overflow behaviour of field mapping -/

/-- C4 counterexample: mapping a `PositionCreatedEvent` whose
`supported_positions_token_i` is `2^31` (not representable in `i32`)
succeeds and silently wraps the value to `-2^31` instead of failing with a
`MappingError`. -/
theorem mapping_wraps_counterexample :
    PositionCreatedEvent.try_map_to_db
      { position_id := [], position_type := false, amount := 0, leverage_multiplier := 0,
        entry_price := 0, entry_price_decimals := 0, supported_positions_token_i := 2 ^ 31,
        price_feed_id_bytes := [], account_id := [] } "tx" 0 =
    Except.ok { transaction_hash := "tx", position_id := "0x", position_type := "Long",
                amount := 0, leverage_multiplier := 0, entry_price := 0,
                entry_price_decimals := 0, supported_positions_token_i := -(2 ^ 31),
                price_feed_id_bytes := "", account_id := "0x", timestamp := 0 } := by
  rfl

/-- C4 amended: the checked conversion (deposit `creation_num` via
`try_into::<i64>`) fails with a mapping error exactly above `i64::MAX`, and
the `u64 → BigDecimal` conversions never fail; but
`supported_positions_token_i as i32` and `num_open_collateral_objects as
i64` are wrapping casts — those mappings always succeed, storing the
two's-complement-wrapped value, so out-of-range values are silently
truncated rather than rejected. -/
theorem mapping_overflow_behavior :
    (∀ (e : MoveCollateralDepositEvent) (tx : String) (t : Int),
      2 ^ 63 ≤ e.token_id.creation_num →
      CollateralDepositEvent.try_map_to_db e tx t =
        Except.error "Failed to convert token_id.creation_num u64 to i64") ∧
    (∀ (e : MoveCollateralDepositEvent) (tx : String) (t : Int),
      e.token_id.creation_num < 2 ^ 63 → ∃ row,
      CollateralDepositEvent.try_map_to_db e tx t = Except.ok row ∧
      row.token_creation_num = (e.token_id.creation_num : Int)) ∧
    (∀ (e : MovePositionCreatedEvent) (tx : String) (t : Int), ∃ row,
      PositionCreatedEvent.try_map_to_db e tx t = Except.ok row ∧
      row.supported_positions_token_i = i32wrap e.supported_positions_token_i) ∧
    (∀ (e : MoveStartCollateralValueAssertionEvent) (tx : String) (t : Int), ∃ row,
      StartCollateralValueAssertionEvent.try_map_to_db e tx t = Except.ok row ∧
      row.num_open_collateral_objects = i64wrap e.num_open_collateral_objects) := by
  refine ⟨?_, ?_, ?_, ?_⟩
  · intro e tx t h
    have h63 : (9223372036854775808 : Nat) = 2 ^ 63 := by norm_num
    have h' : ¬ e.token_id.creation_num < 9223372036854775808 := by
      rw [h63]; exact Nat.not_lt.mpr h
    simp [CollateralDepositEvent.try_map_to_db, optContext, bigDecimalFromU64,
      u64ToI64Checked, h', Bind.bind, Except.bind]
  · intro e tx t h
    have h63 : (9223372036854775808 : Nat) = 2 ^ 63 := by norm_num
    have h' : e.token_id.creation_num < 9223372036854775808 := by rw [h63]; exact h
    refine ⟨({ transaction_hash := tx, collateral_id := hexEncode e.collateral_id,
               collateral_marker_id := hexEncode e.collateral_marker_id,
               account_id := hexEncode e.account_id,
               token_account_address := hexEncode e.token_id.account_address,
               token_creation_num := (e.token_id.creation_num : Int), amount := e.amount,
               timestamp := t } : DepositRow), ?_, rfl⟩
    simp [CollateralDepositEvent.try_map_to_db, optContext, bigDecimalFromU64,
      u64ToI64Checked, h', Bind.bind, Except.bind, Pure.pure, Except.pure]
  · intro e tx t
    exact ⟨_, rfl, rfl⟩
  · intro e tx t
    exact ⟨_, rfl, rfl⟩

/-- Witness for (amended) C4: a deposit with `creation_num = 2^63` fails the
checked conversion at a concrete input. -/
theorem mapping_overflow_behavior_witness :
    CollateralDepositEvent.try_map_to_db
      { collateral_id := [], collateral_marker_id := [], account_id := [],
        token_id := { account_address := [], creation_num := 2 ^ 63 }, amount := 0 } "tx" 0 =
      Except.error "Failed to convert token_id.creation_num u64 to i64" :=
  mapping_overflow_behavior.1
    { collateral_id := [], collateral_marker_id := [], account_id := [],
      token_id := { account_address := [], creation_num := 2 ^ 63 }, amount := 0 } "tx" 0
    (by decide)

/-! ## Claim C8: collateral-transfer callback skip on vault-lookup miss -/

/-- C8: when a CollateralTransferCreated event's destination vault has no
vault-created row (or the lookup's connection fails), the callback makes no
HTTP call, while the transfer row is still persisted locally by the
subsequent store step. -/
theorem collateral_transfer_callback_skip (o : Oracle) (t : Int) (digest : String)
    (contents : List Nat) (e : MoveCollateralTransferCreatedEvent) (w : World)
    (row : CollateralTransferRow)
    (hdec : fromBytes decCollateralTransferCreated contents = some e)
    (hmiss : o.connFail w.connCount = true ∨
      VaultCreatedEventRepository.find_by_vault_address w.db
        (convert_sui_address_to_hex_string e.to_vault_address) = none)
    (hconn2 : o.connFail (w.connCount + 1) = false)
    (hmap : CollateralTransferCreatedEvent.try_map_to_db e digest t = Except.ok row)
    (hfresh : ∀ r ∈ w.db.collateralTransfers, (r.transfer_id == row.transfer_id) = false) :
    (stepCollateralTransferCreated o t digest contents w).httpCalls = w.httpCalls ∧
    (stepCollateralTransferCreated o t digest contents w).db.collateralTransfers =
      w.db.collateralTransfers ++ [row] := by
  have hcb : transfers_callbacks.on_collateral_transfer_created o e w =
      { w with connCount := w.connCount + 1 } := by
    unfold transfers_callbacks.on_collateral_transfer_created
    rcases hmiss with hm | hm
    · simp [hm]
    · by_cases hc : o.connFail w.connCount
      · simp [hc]
      · simp [hc, hm]
  have hstep : stepCollateralTransferCreated o t digest contents w =
      stepStore o { w with connCount := w.connCount + 1 }
        (fun c db => CollateralTransferRepository.create c db row) := by
    unfold stepCollateralTransferCreated
    rw [hdec]
    simp only [hmap, hcb]
  rw [hstep]
  simp only [stepStore, CollateralTransferRepository.create, hconn2, Bool.not_false, if_true]
  rw [if_neg]
  · exact ⟨by simp, by simp⟩
  · simp only [List.any_eq_true, not_exists, not_and]
    intro r hr
    simp [hfresh r hr]

/-- Concrete event and row for the C8 witness: all-zero addresses, amount 0;
its BCS payload is 136 zero bytes. -/
def c8Event : MoveCollateralTransferCreatedEvent :=
  { transfer_id := List.replicate 32 0, collateral_marker_id := List.replicate 32 0,
    collateral_address := List.replicate 32 0, amount := 0,
    to_vault_address := List.replicate 32 0 }

def c8Row : CollateralTransferRow :=
  { transaction_hash := "d",
    transfer_id := "0x" ++ hexEncode (List.replicate 32 0),
    collateral_marker_id := "0x" ++ hexEncode (List.replicate 32 0),
    collateral_address := "0x" ++ hexEncode (List.replicate 32 0),
    amount := 0,
    to_vault_address := "0x" ++ hexEncode (List.replicate 32 0),
    fulfilled := false, timestamp := 0 }

set_option maxRecDepth 4000 in
/-- Witness for C8: an empty database has no vault-created row for the
destination vault, so no HTTP call is made while the transfer row lands. -/
theorem collateral_transfer_callback_skip_witness :
    (stepCollateralTransferCreated noConnFail 0 "d" (List.replicate 136 0) {}).httpCalls =
      ({} : World).httpCalls ∧
    (stepCollateralTransferCreated noConnFail 0 "d" (List.replicate 136 0) {}).db.collateralTransfers =
      ({} : World).db.collateralTransfers ++ [c8Row] :=
  collateral_transfer_callback_skip noConnFail 0 "d" (List.replicate 136 0) c8Event {} c8Row
    (by rfl) (Or.inr (by rfl)) (by rfl) (by rfl) (by simp)

/-! ## Claim C7: strict decode per recognized event kind -/

/-- The ten recognized event kinds. -/
inductive EventKind where
  | positionCreated
  | positionClosed
  | vaultCreated
  | newAccount
  | collateralDeposit
  | startCva
  | collateralTransferCreated
  | vaultTransferCreated
  | positionLiquidated
  | markerLiquidated
  deriving DecidableEq

/-- A decoded event of any recognized kind. -/
inductive DecodedEvent where
  | positionCreated : MovePositionCreatedEvent → DecodedEvent
  | positionClosed : MovePositionClosedEvent → DecodedEvent
  | vaultCreated : MoveVaultCreatedEvent → DecodedEvent
  | newAccount : MoveNewAccountEvent → DecodedEvent
  | collateralDeposit : MoveCollateralDepositEvent → DecodedEvent
  | startCva : MoveStartCollateralValueAssertionEvent → DecodedEvent
  | collateralTransferCreated : MoveCollateralTransferCreatedEvent → DecodedEvent
  | vaultTransferCreated : MoveVaultTransferCreatedEvent → DecodedEvent
  | positionLiquidated : MovePositionLiquidatedEvent → DecodedEvent
  | markerLiquidated : MoveCollateralMarkerLiquidatedEvent → DecodedEvent
  deriving DecidableEq

/-- The BCS decoder of each kind, injected into `DecodedEvent`. -/
def kindDecoder : EventKind → Bcs DecodedEvent
  | .positionCreated =>
    Bcs.bind decPositionCreated (fun e => Bcs.pure (DecodedEvent.positionCreated e))
  | .positionClosed =>
    Bcs.bind decPositionClosed (fun e => Bcs.pure (DecodedEvent.positionClosed e))
  | .vaultCreated =>
    Bcs.bind decVaultCreated (fun e => Bcs.pure (DecodedEvent.vaultCreated e))
  | .newAccount =>
    Bcs.bind decNewAccount (fun e => Bcs.pure (DecodedEvent.newAccount e))
  | .collateralDeposit =>
    Bcs.bind decCollateralDeposit (fun e => Bcs.pure (DecodedEvent.collateralDeposit e))
  | .startCva =>
    Bcs.bind decStartCva (fun e => Bcs.pure (DecodedEvent.startCva e))
  | .collateralTransferCreated =>
    Bcs.bind decCollateralTransferCreated
      (fun e => Bcs.pure (DecodedEvent.collateralTransferCreated e))
  | .vaultTransferCreated =>
    Bcs.bind decVaultTransferCreated
      (fun e => Bcs.pure (DecodedEvent.vaultTransferCreated e))
  | .positionLiquidated =>
    Bcs.bind decPositionLiquidated (fun e => Bcs.pure (DecodedEvent.positionLiquidated e))
  | .markerLiquidated =>
    Bcs.bind decMarkerLiquidated (fun e => Bcs.pure (DecodedEvent.markerLiquidated e))

/-- The dispatcher branch body associated with each kind. -/
def kindStep : EventKind → Oracle → Int → String → List Nat → World → World
  | .positionCreated => stepPositionCreated
  | .positionClosed => stepPositionClosed
  | .vaultCreated => stepVaultCreated
  | .newAccount => stepNewAccount
  | .collateralDeposit => stepCollateralDeposit
  | .startCva => stepStartCva
  | .collateralTransferCreated => stepCollateralTransferCreated
  | .vaultTransferCreated => stepVaultTransferCreated
  | .positionLiquidated => stepPositionLiquidated
  | .markerLiquidated => stepMarkerLiquidated

/-- The worker's type-tag string for each kind. -/
def WorkerConfig.kindTag (cfg : WorkerConfig) : EventKind → String
  | .positionCreated => cfg.position_created_event_type
  | .positionClosed => cfg.position_closed_event_type
  | .vaultCreated => cfg.vault_created_event_type
  | .newAccount => cfg.new_account_event_type
  | .collateralDeposit => cfg.collateral_deposit_event_type
  | .startCva => cfg.start_collateral_value_assertion_event_type
  | .collateralTransferCreated => cfg.collateral_transfer_created_event_type
  | .vaultTransferCreated => cfg.vault_transfer_created_event_type
  | .positionLiquidated => cfg.position_liquidated_event_type
  | .markerLiquidated => cfg.collateral_marker_liquidated_event_type

theorem string_append_left_cancel {a b c : String} (h : a ++ b = a ++ c) : b = c := by
  have h2 : (a ++ b).data = (a ++ c).data := by rw [h]
  simp [String.data_append] at h2
  exact String.ext h2

theorem append_beq_append (pkg a b : String) : (pkg ++ a == pkg ++ b) = (a == b) := by
  by_cases h : a = b
  · subst h; simp
  · have hne : pkg ++ a ≠ pkg ++ b := fun hc => h (string_append_left_cancel hc)
    simp [h, hne]

theorem fromBytes_bind_pure {α β : Type} (d : Bcs α) (g : α → β) (l : List Nat) :
    fromBytes (Bcs.bind d (fun a => Bcs.pure (g a))) l = Option.map g (fromBytes d l) := by
  unfold fromBytes Bcs.bind Bcs.pure
  cases h : d l with
  | none => rfl
  | some ar =>
    obtain ⟨a, r⟩ := ar
    cases r <;> rfl

theorem bcsExt_kindDecoder (k : EventKind) : BcsExt (kindDecoder k) := by
  cases k
  · exact bcsExt_bind bcsExt_decPositionCreated fun _ => bcsExt_pure _
  · exact bcsExt_bind bcsExt_decPositionClosed fun _ => bcsExt_pure _
  · exact bcsExt_bind bcsExt_decVaultCreated fun _ => bcsExt_pure _
  · exact bcsExt_bind bcsExt_decNewAccount fun _ => bcsExt_pure _
  · exact bcsExt_bind bcsExt_decCollateralDeposit fun _ => bcsExt_pure _
  · exact bcsExt_bind bcsExt_decStartCva fun _ => bcsExt_pure _
  · exact bcsExt_bind bcsExt_decCollateralTransferCreated fun _ => bcsExt_pure _
  · exact bcsExt_bind bcsExt_decVaultTransferCreated fun _ => bcsExt_pure _
  · exact bcsExt_bind bcsExt_decPositionLiquidated fun _ => bcsExt_pure _
  · exact bcsExt_bind bcsExt_decMarkerLiquidated fun _ => bcsExt_pure _

theorem handleEvent_eq_kindStep (pkg : String) (k : EventKind) (o : Oracle) (t : Int)
    (digest : String) (ev : EventInput) (w : World)
    (htag : ev.type_tag = (PositionEventWorker.new pkg).kindTag k) :
    handleEvent (PositionEventWorker.new pkg) o t digest ev w =
      kindStep k o t digest ev.contents w := by
  cases k <;>
    simp only [handleEvent, htag, WorkerConfig.kindTag, PositionEventWorker.new,
      append_beq_append, kindStep] <;>
    simp

theorem kindStep_noop (k : EventKind) (o : Oracle) (t : Int) (digest : String)
    (c : List Nat) (w : World) (h : fromBytes (kindDecoder k) c = none) :
    kindStep k o t digest c w = w := by
  cases k <;>
    (simp only [kindDecoder] at h;
     rw [fromBytes_bind_pure, Option.map_eq_none'] at h) <;>
    simp [kindStep, stepPositionCreated, stepPositionClosed, stepVaultCreated,
      stepNewAccount, stepCollateralDeposit, stepStartCva,
      stepCollateralTransferCreated, stepVaultTransferCreated,
      stepPositionLiquidated, stepMarkerLiquidated, h]

/-- C7: for every recognized event kind, decoding is strict: if a payload
decodes in full, every strictly shorter front part of it (in particular one
byte short) fails decode; and when decode of an event's payload fails, the
dispatcher leaves the state entirely unchanged — no record, callback, store
attempt or HTTP call is produced for that event. -/
theorem decode_strict_truncation (k : EventKind) :
    (∀ (p q ext : List Nat) (a : DecodedEvent),
      fromBytes (kindDecoder k) p = some a → p = q ++ ext → ext ≠ [] →
      fromBytes (kindDecoder k) q = none) ∧
    (∀ (pkg : String) (o : Oracle) (t : Int) (digest : String) (w : World) (ev : EventInput),
      ev.type_tag = (PositionEventWorker.new pkg).kindTag k →
      fromBytes (kindDecoder k) ev.contents = none →
      handleEvent (PositionEventWorker.new pkg) o t digest ev w = w) := by
  constructor
  · intro p q ext a hp hsplit hne
    exact fromBytes_strict_trunc (bcsExt_kindDecoder k) hp hsplit hne
  · intro pkg o t digest w ev htag hdec
    rw [handleEvent_eq_kindStep pkg k o t digest ev w htag]
    exact kindStep_noop k o t digest ev.contents w hdec

set_option maxRecDepth 4000 in
/-- Witness for C7 at the marker-liquidated kind: the 64-zero-byte payload
decodes, its 63-byte front part (one byte short) fails, and an event with a
failing payload leaves the state unchanged. -/
theorem decode_strict_truncation_witness :
    fromBytes (kindDecoder EventKind.markerLiquidated) (List.replicate 63 0) = none ∧
    handleEvent (PositionEventWorker.new "0xp") noConnFail 0 "d"
      ⟨"0xp::collateral::CollateralMarkerLiquidatedEvent", List.replicate 63 0⟩ {} = {} := by
  constructor
  · exact (decode_strict_truncation EventKind.markerLiquidated).1
      (List.replicate 64 0) (List.replicate 63 0) [0]
      (DecodedEvent.markerLiquidated ⟨List.replicate 32 0, List.replicate 32 0⟩)
      (by rfl) (by decide) (by decide)
  · exact (decode_strict_truncation EventKind.markerLiquidated).2
      "0xp" noConnFail 0 "d" {}
      ⟨"0xp::collateral::CollateralMarkerLiquidatedEvent", List.replicate 63 0⟩
      (by rfl) (by rfl)

end Pismo
